import Mathlib

/-!
Shallow embedding of `src/automation/playwright_executor.py`
(`PlaywrightAmazonExecutor`), the BDD/Playwright test-execution
orchestrator.  Browser effects (navigation, clicks, visibility checks,
page creation, layer teardown) are resolved by explicit environment
records of outcomes; the Python control flow — retry loops, `try/except`
handlers, short-circuiting scenario loops, result aggregation — is
translated function by function.  Exceptions are modelled with explicit
`Except`/`Option` error values threaded through each handler, and every
external call a function performs is recorded in an action trace so that
"zero further attempts", "no browser action", and "cleanup always runs"
become statements about that trace.
-/

namespace PlaywrightExec

/-- Python `needle in haystack` substring test on strings. -/
def pyIn (needle haystack : String) : Bool :=
  decide (List.IsInfix needle.toList haystack.toList)

/-- An exception raised by a browser call: either a `playwright` `Error`
(the Python code catches these as `PlaywrightError`) or a generic Python
`Exception`, each carrying its message string. -/
inductive PyErr where
  | pw (msg : String)
  | exn (msg : String)
deriving DecidableEq, Repr

/-- Message carried by an exception. -/
def PyErr.message : PyErr → String
  | .pw m => m
  | .exn m => m

/-- The closed-browser error classification used throughout the source:
`"Target closed" in error_msg or "browser has been closed" in error_msg`. -/
def isClosedErr (msg : String) : Bool :=
  pyIn "Target closed" msg || pyIn "browser has been closed" msg

/-- Model of a Playwright `Browser` handle: only `is_connected()` is
consulted by the executor. -/
structure BrowserRef where
  is_connected : Bool
deriving DecidableEq, Repr

/-- Model of a Playwright `Page` handle: only `is_closed()` is consulted. -/
structure PageRef where
  is_closed : Bool
deriving DecidableEq, Repr

/-- The executor fields read by `_check_browser_state` and the in-loop
navigation prechecks: `self.browser_crashed`, `self.browser`, `self.page`. -/
structure ExecState where
  browser_crashed : Bool
  browser : Option BrowserRef
  page : Option PageRef
deriving DecidableEq, Repr

/-- Embedding of `PlaywrightAmazonExecutor._check_browser_state` (lines 214-226):
returns `(is_valid, message)`, checking crash flag, browser presence,
browser connection, page presence and page-closed state in that order. -/
def check_browser_state (s : ExecState) : Bool × String :=
  if s.browser_crashed then (false, "Browser has crashed")
  else
    match s.browser with
    | none => (false, "Browser not initialized")
    | some b =>
      if !b.is_connected then (false, "Browser disconnected")
      else
        match s.page with
        | none => (false, "Page not initialized")
        | some p =>
          if p.is_closed then (false, "Page is closed")
          else (true, "OK")

/-- The `result` dict built by `execute_step`: description, phase,
status string (`"pending"`/`"passed"`/`"failed"`), optional message,
optional error, optional navigation response code and its OK/ERROR
bucket.  The wall-clock `timestamp` field is omitted. -/
structure StepResult where
  step : String
  type : String
  status : String
  message : Option String := none
  error : Option String := none
  response_code : Option Int := none
  response_status : Option String := none
deriving DecidableEq, Repr

/-- The nested `element` dict of a step; only its `locator` key is read. -/
structure Elem where
  locator : Option String := none
deriving DecidableEq, Repr

/-- The `expected_result` value of a cart-count validation: the source
compares it against the string sentinel `greater_than_0` or, via
`isinstance(expected, int)`, against a literal integer. -/
inductive Expected where
  | str (s : String)
  | int (n : Int)
deriving DecidableEq, Repr

/-- A step dict: every key `execute_step` reads, each optional exactly as
`dict.get` makes it. -/
structure Step where
  step : Option String := none
  url : Option String := none
  wait_until : Option String := none
  timeout : Option Nat := none
  retries : Option Nat := none
  action : Option String := none
  element : Option Elem := none
  search_term : Option String := none
  validation_type : Option String := none
  expected_result : Option Expected := none
  expected_text : Option String := none
deriving DecidableEq, Repr

/-- One browser call performed by `execute_step`, recorded in order. -/
inductive Action where
  | goto (url : String)
  | sleepSec (n : Nat)
  | fill (locator text : String)
  | click (locator : String)
  | isVisible (locator : String)
  | countOf (locator : String)
  | textContentOf (locator : String)
  | readUrl
deriving DecidableEq, Repr

/-- Environment resolving the browser calls one `execute_step` invocation
can make: the executor state consulted by health checks, the outcome of
`page.goto` on each 0-based attempt of the Given-navigation retry loop,
and the outcome of each other call the step could perform. -/
structure StepEnv where
  self : ExecState
  nav : Nat → Except PyErr (Option Int)
  fillRes : Except PyErr Unit := .ok ()
  clickRes : Except PyErr Unit := .ok ()
  whenGotoRes : Except PyErr Unit := .ok ()
  visibleRes : Except PyErr Bool := .ok true
  countRes : Except PyErr Nat := .ok 0
  cartText : Except PyErr (Option String) := .ok none
  textRes : Except PyErr (Option String) := .ok none
  pageUrl : String := ""
  thenClickRes : Except PyErr Unit := .ok ()

/-- Bucketing of the navigation response code (line 309):
`'OK' if response_code and 200 <= response_code < 300 else 'ERROR'`. -/
def respBucket (code : Option Int) : String :=
  match code with
  | some c => if c ≠ 0 ∧ 200 ≤ c ∧ c < 300 then "OK" else "ERROR"
  | none => "ERROR"

/-- One attempt of the Given-navigation retry loop (lines 293-300): the
in-loop browser/page prechecks, whose failures raise generic exceptions
handled by the per-attempt `except Exception` clause, and otherwise the
`page.goto` call with its outcome for this attempt. -/
def navAttemptOutcome (env : StepEnv) (url : String) (attempt : Nat) :
    List Action × Except PyErr (Option Int) :=
  let browserBad : Bool :=
    match env.self.browser with
    | none => true
    | some b => !b.is_connected
  let pageBad : Bool :=
    match env.self.page with
    | none => true
    | some p => p.is_closed
  if browserBad then ([], .error (.exn "Browser disconnected before navigation"))
  else if pageBad then ([], .error (.exn "Page closed before navigation"))
  else ([.goto url], env.nav attempt)

/-- The Given-navigation retry loop of `execute_step` (lines 291-340):
`for attempt in range(max_retries)`, with immediate abort (a raise) on
closed-browser Playwright errors, a 2-second sleep before each retry,
and a final raise of the last error once attempts are exhausted.  `fuel`
is the number of remaining iterations (`max_retries - attempt`); the
third component of the value is the exception escaping the loop, if any. -/
def navLoop (env : StepEnv) (url : String) (maxRetries : Nat) :
    Nat → Nat → StepResult → List Action → StepResult × List Action × Option PyErr
  | _attempt, 0, res, acc => (res, acc, none)
  | attempt, fuel + 1, res, acc =>
    let att := navAttemptOutcome env url attempt
    match att.2 with
    | .ok code =>
      ({ res with
          status := "passed"
          message := some s!"Navigated to {url} (attempt {attempt + 1})"
          response_code := code
          response_status := some (respBucket code) },
        acc ++ att.1, none)
    | .error (.pw m) =>
      if isClosedErr m then
        ({ res with
            status := "failed"
            error := some "Browser closed during navigation"
            message := some "The browser or page was closed unexpectedly during navigation. This may indicate a crash or external closure." },
          acc ++ att.1, some (.pw m))
      else if attempt < maxRetries - 1 then
        navLoop env url maxRetries (attempt + 1) fuel res (acc ++ att.1 ++ [.sleepSec 2])
      else
        ({ res with
            status := "failed"
            error := some m
            message := some s!"Failed to navigate to {url} after {maxRetries} attempts: {m}"
            response_code := none },
          acc ++ att.1, some (.pw m))
    | .error (.exn m) =>
      if attempt < maxRetries - 1 then
        navLoop env url maxRetries (attempt + 1) fuel res (acc ++ att.1 ++ [.sleepSec 2])
      else
        ({ res with
            status := "failed"
            error := some m
            message := some s!"Failed to navigate to {url} after {maxRetries} attempts: {m}"
            response_code := none },
          acc ++ att.1, some (.exn m))

/-- The When-step dispatch of `execute_step` (lines 343-370): `search`
fills the locator, `click` clicks it, `navigate` issues a plain goto; a
missing locator/term or any other action string falls through leaving the
result untouched (still `pending`). -/
def whenBody (env : StepEnv) (step : Step) (res : StepResult) :
    StepResult × List Action × Option PyErr :=
  let action := step.action
  if action = some "search" then
    match (step.element.getD {}).locator, step.search_term with
    | some locator, some search_term =>
      match env.fillRes with
      | .ok _ =>
        ({ res with status := "passed", message := some s!"Entered {search_term} in search box" },
          [.fill locator search_term], none)
      | .error e => (res, [.fill locator search_term], some e)
    | _, _ => (res, [], none)
  else if action = some "click" then
    match (step.element.getD {}).locator with
    | some locator =>
      match env.clickRes with
      | .ok _ =>
        ({ res with status := "passed", message := some s!"Clicked element: {locator}" },
          [.click locator], none)
      | .error e => (res, [.click locator], some e)
    | none => (res, [], none)
  else if action = some "navigate" then
    match step.url with
    | some url =>
      match env.whenGotoRes with
      | .ok _ =>
        ({ res with status := "passed", message := some s!"Navigated to {url}" },
          [.goto url], none)
      | .error e => (res, [.goto url], some e)
    | none => (res, [], none)
  else (res, [], none)

/-- Python `int(text) if text else 0` for the cart-count text: `None` and
the empty string are falsy and give 0; a non-numeric string raises
`ValueError` (integer parsing is modelled by `String.toInt?`). -/
def pyCartCount (text : Option String) : Except PyErr Int :=
  match text with
  | none => .ok 0
  | some s =>
    if s = "" then .ok 0
    else
      match s.toInt? with
      | some n => .ok n
      | none => .error (.exn s!"invalid literal for int with base 10: {s}")

/-- The Then-validation dispatch of `execute_step` (lines 374-447):
`element_visible`, `element_exists`, `cart_items_count`, `text_content`
and `url_contains`, each with its comparison rule; any other
`validation_type` falls through leaving the result untouched. -/
def thenValidation (env : StepEnv) (step : Step) (res : StepResult) :
    StepResult × List Action × Option PyErr :=
  let vt := step.validation_type
  if vt = some "element_visible" then
    match (step.element.getD {}).locator with
    | some locator =>
      match env.visibleRes with
      | .ok true =>
        ({ res with status := "passed", message := some s!"Element {locator} is visible" },
          [.isVisible locator], none)
      | .ok false =>
        ({ res with status := "failed", message := some s!"Element {locator} is not visible" },
          [.isVisible locator], none)
      | .error e => (res, [.isVisible locator], some e)
    | none => (res, [], none)
  else if vt = some "element_exists" then
    match (step.element.getD {}).locator with
    | some locator =>
      match env.countRes with
      | .ok count =>
        if count > 0 then
          ({ res with
              status := "passed"
              message := some s!"Element {locator} exists (count: {count})" },
            [.countOf locator], none)
        else
          ({ res with
              status := "failed"
              message := some s!"Element {locator} does not exist" },
            [.countOf locator], none)
      | .error e => (res, [.countOf locator], some e)
    | none => (res, [], none)
  else if vt = some "cart_items_count" then
    match env.cartText with
    | .error e => (res, [.textContentOf "#nav-cart-count"], some e)
    | .ok text =>
      match pyCartCount text with
      | .error e => (res, [.textContentOf "#nav-cart-count"], some e)
      | .ok cart_count =>
        match step.expected_result with
        | some (.str s) =>
          if s = "greater_than_0" then
            if cart_count > 0 then
              ({ res with
                  status := "passed"
                  message := some s!"Cart count is {cart_count} (> 0)" },
                [.textContentOf "#nav-cart-count"], none)
            else
              ({ res with
                  status := "failed"
                  message := some s!"Cart is empty (count: {cart_count})" },
                [.textContentOf "#nav-cart-count"], none)
          else (res, [.textContentOf "#nav-cart-count"], none)
        | some (.int expected) =>
          if cart_count = expected then
            ({ res with
                status := "passed"
                message := some s!"Cart count matches expected: {cart_count}" },
              [.textContentOf "#nav-cart-count"], none)
          else
            ({ res with
                status := "failed"
                message := some s!"Cart count {cart_count} != expected {expected}" },
              [.textContentOf "#nav-cart-count"], none)
        | none => (res, [.textContentOf "#nav-cart-count"], none)
  else if vt = some "text_content" then
    match (step.element.getD {}).locator, step.expected_text with
    | some locator, some expected_text =>
      match env.textRes with
      | .error e => (res, [.textContentOf locator], some e)
      | .ok none =>
        (res, [.textContentOf locator],
          some (.exn "argument of type NoneType is not iterable"))
      | .ok (some actual) =>
        if pyIn expected_text actual then
          ({ res with status := "passed", message := some s!"Text matches: {expected_text}" },
            [.textContentOf locator], none)
        else
          ({ res with
              status := "failed"
              message := some s!"Text mismatch. Expected: {expected_text}, Got: {actual}" },
            [.textContentOf locator], none)
    | _, _ => (res, [], none)
  else if vt = some "url_contains" then
    match step.expected_text with
    | some expected_text =>
      let current_url := env.pageUrl
      if expected_text = "" then (res, [.readUrl], none)
      else if pyIn expected_text current_url then
        ({ res with
            status := "passed"
            message := some s!"URL contains {expected_text}: {current_url}" },
          [.readUrl], none)
      else
        ({ res with
            status := "failed"
            message := some s!"URL does not contain {expected_text}. Current URL: {current_url}" },
          [.readUrl], none)
    | none => (res, [.readUrl], none)
  else (res, [], none)

/-- A Then step executes its validation first and then, when the step
dict carries an `action` key equal to `click`, the trailing click
(lines 450-458), whose success overwrites the status with `passed`. -/
def thenBody (env : StepEnv) (step : Step) (res0 : StepResult) :
    StepResult × List Action × Option PyErr :=
  match thenValidation env step res0 with
  | (res, acts, some e) => (res, acts, some e)
  | (res, acts, none) =>
    match step.action with
    | some a =>
      if a = "click" then
        match (step.element.getD {}).locator with
        | some locator =>
          match env.thenClickRes with
          | .ok _ =>
            ({ res with status := "passed", message := some s!"Clicked element: {locator}" },
              acts ++ [.click locator], none)
          | .error e => (res, acts ++ [.click locator], some e)
        | none => (res, acts, none)
      else (res, acts, none)
    | none => (res, acts, none)

/-- The body of the outer `try` of `execute_step` (lines 274-458):
health check first (a failure raises a generic exception), then dispatch
on the phase string. -/
def executeStepBody (env : StepEnv) (step : Step) (step_type : String)
    (res0 : StepResult) : StepResult × List Action × Option PyErr :=
  let check := check_browser_state env.self
  if !check.1 then
    (res0, [], some (.exn ("Cannot execute step: " ++ check.2)))
  else if step_type = "given" then
    match step.url with
    | some url =>
      let maxRetries := step.retries.getD 2
      navLoop env url maxRetries 0 maxRetries res0 []
    | none => (res0, [], none)
  else if step_type = "when" then whenBody env step res0
  else if step_type = "then" then thenBody env step res0
  else (res0, [], none)

/-- The `except PlaywrightError` / `except Exception` handlers of
`execute_step` (lines 460-479), which overwrite status, error and
message on the partially built result. -/
def stepExceptHandler (env : StepEnv) (res : StepResult) :
    Option PyErr → StepResult
  | none => res
  | some (.pw m) =>
    if isClosedErr m then
      { res with
          status := "failed"
          error := some "Browser or page was closed unexpectedly"
          message := some
            ("Browser connection lost - the page, context, or browser was closed during execution"
              ++ if env.self.browser_crashed then
                  " (Browser crashed - this may be due to memory issues, page complexity, or browser bugs)"
                else "") }
    else
      { res with
          status := "failed"
          error := some m
          message := some ("Playwright error: " ++ m) }
  | some (.exn m) =>
    { res with
        status := "failed"
        error := some m
        message := some ("Error executing step: " ++ m) }

/-- The initial pending `result` dict of `execute_step` (lines 267-272). -/
def stepInit (step : Step) (step_type : String) : StepResult :=
  { step := step.step.getD "Unknown step", type := step_type, status := "pending" }

/-- Embedding of `PlaywrightAmazonExecutor.execute_step` (lines 265-481): build the
pending result, run the body, and convert any escaping exception into a
failed result; also returns the trace of browser calls performed. -/
def execute_step (env : StepEnv) (step : Step) (step_type : String) :
    StepResult × List Action :=
  let r := executeStepBody env step step_type (stepInit step step_type)
  (stepExceptHandler env r.1 r.2.2, r.2.1)

end PlaywrightExec

namespace PlaywrightExec

/-- A scenario dict: the keys `execute_scenario` reads.  `whenS` and
`thenS` stand for the `when` and `then` keys. -/
structure Scenario where
  scenario_id : Option String := none
  scenario_name : Option String := none
  tags : List String := []
  given : List Step := []
  whenS : List Step := []
  thenS : List Step := []
deriving DecidableEq, Repr

/-- The `scenario_result` dict (timestamps omitted). -/
structure ScenarioResult where
  scenario_id : Option String := none
  scenario_name : Option String := none
  tags : List String := []
  status : String := "pending"
  steps : List StepResult := []
  error : Option String := none
deriving DecidableEq, Repr

/-- The Given loop of `execute_scenario` (lines 502-510): run each step,
append its result and the phase tag `"given"` to the log; on the first
failed result set status `failed`, tag a browser-closed error, and
return early (third component `true`).  `runStep` stands for
`self.execute_step`, which never raises (it converts every exception
into a failed result). -/
def runGivenLoop (runStep : Step → String → StepResult) :
    ScenarioResult → List String → List Step →
    ScenarioResult × List String × Bool
  | res, log, [] => (res, log, false)
  | res, log, s :: rest =>
    let sr := runStep s "given"
    let res := { res with steps := res.steps ++ [sr] }
    let log := log ++ ["given"]
    if sr.status = "failed" then
      let res := { res with status := "failed" }
      let res :=
        if pyIn "Browser" (sr.error.getD "") && pyIn "closed" (sr.error.getD "") then
          { res with error := some "Browser closed during execution" }
        else res
      (res, log, true)
    else runGivenLoop runStep res log rest

/-- The When loop of `execute_scenario` (lines 513-518): like the Given
loop but without the browser-closed error tagging. -/
def runWhenLoop (runStep : Step → String → StepResult) :
    ScenarioResult → List String → List Step →
    ScenarioResult × List String × Bool
  | res, log, [] => (res, log, false)
  | res, log, s :: rest =>
    let sr := runStep s "when"
    let res := { res with steps := res.steps ++ [sr] }
    let log := log ++ ["when"]
    if sr.status = "failed" then
      ({ res with status := "failed" }, log, true)
    else runWhenLoop runStep res log rest

/-- The Then loop of `execute_scenario` (lines 521-526): every step runs
(no early return); a failed result sets the scenario status to `failed`
but iteration continues. -/
def runThenLoop (runStep : Step → String → StepResult) :
    ScenarioResult → List String → List Step → ScenarioResult × List String
  | res, log, [] => (res, log)
  | res, log, s :: rest =>
    let sr := runStep s "then"
    let res := { res with steps := res.steps ++ [sr] }
    let log := log ++ ["then"]
    let res := if sr.status = "failed" then { res with status := "failed" } else res
    runThenLoop runStep res log rest

/-- The initial `scenario_result` dict of `execute_scenario`
(lines 485-492). -/
def scenarioInit (sc : Scenario) : ScenarioResult :=
  { scenario_id := sc.scenario_id, scenario_name := sc.scenario_name
    tags := sc.tags, status := "pending" }

/-- Embedding of `PlaywrightAmazonExecutor.execute_scenario` (lines 483-547): check
the browser connection, run the three phase loops with their
short-circuit rules, then derive the overall status (lines 528-531):
`passed` when every recorded step passed, else `partial` unless the
status was already set to `failed`.  Besides the result it returns the
log of phase tags, one entry per `execute_step` call actually made. -/
def execute_scenario (runStep : Step → String → StepResult)
    (st : ExecState) (sc : Scenario) : ScenarioResult × List String :=
  let res0 : ScenarioResult := scenarioInit sc
  let browserLost : Bool :=
    match st.browser with
    | none => true
    | some b => !b.is_connected
  if browserLost then
    ({ res0 with
        status := "failed"
        error := some "Browser connection lost before scenario execution" }, [])
  else
    match runGivenLoop runStep res0 [] sc.given with
    | (res, log, true) => (res, log)
    | (res, log, false) =>
      match runWhenLoop runStep res log sc.whenS with
      | (res, log, true) => (res, log)
      | (res, log, false) =>
        let (res, log) := runThenLoop runStep res log sc.thenS
        let res :=
          if res.steps.all (fun s => s.status = "passed") then
            { res with status := "passed" }
          else if res.status ≠ "failed" then
            { res with status := "partial" }
          else res
        (res, log)

/-- Round half to even of `num / den` (`den > 0`), the rounding CPython
applies when formatting with `:.2f`. -/
def rhe (num den : Nat) : Nat :=
  let q := num / den
  let r := num % den
  if 2 * r < den then q
  else if 2 * r > den then q + 1
  else if q % 2 = 0 then q else q + 1

/-- Two fixed decimal digits of `n % 100`. -/
def pad2 (n : Nat) : String :=
  String.mk [Nat.digitChar (n / 10 % 10), Nat.digitChar (n % 10)]

/-- The pass-rate string of `execute_specification` (line 578):
`f"{(passed/total*100):.2f}%" if total > 0 else "0%"`.  The float
computation and formatting are modelled by exact rational rounding
(round half to even) of `passed/total` as hundredths of a percent; this
is the idealization of CPython binary-float formatting and agrees with
it except for sub-ulp double-rounding artifacts at representation
boundaries. -/
def formatPercent (passed total : Nat) : String :=
  if total > 0 then
    let r := rhe (passed * 10000) total
    toString (r / 100) ++ "." ++ pad2 (r % 100) ++ "%"
  else "0%"

/-- The `summary` dict of a `SpecificationResult`. -/
structure Summary where
  total : Nat
  passed : Nat
  failed : Nat
  pass_rate : String
deriving DecidableEq, Repr

/-- The specification dict: the keys `execute_specification` reads
(the `feature` and `configuration` dicts are carried through verbatim
and are modelled as opaque strings). -/
structure Specification where
  feature : Option String := none
  configuration : Option String := none
  scenarios : List Scenario := []
deriving DecidableEq, Repr

/-- The `test_result` dict (timestamps omitted). -/
structure SpecificationResult where
  feature : Option String := none
  configuration : Option String := none
  scenarios : List ScenarioResult := []
  summary : Option Summary := none
  status : String := "pending"
  error : Option String := none
deriving DecidableEq, Repr

/-- One run-level action of `execute_specification`, recorded in order:
the `initialize_browser` call, each `execute_scenario` call (by index),
and the `close_browser` call of the `finally` block. -/
inductive RunAction where
  | initBrowser
  | runScenarioAt (idx : Nat)
  | closeBrowser
deriving DecidableEq, Repr

/-- Environment of one `execute_specification` run: the outcome of
`initialize_browser` (which either returns or raises), and the result of
each sequential `execute_scenario` call by position (`execute_scenario`
never raises: it converts every exception into a failed result). -/
structure RunEnv where
  launch : Except PyErr Unit
  runScenario : Nat → Scenario → ScenarioResult

/-- The run-level `except` handlers of `execute_specification`
(lines 588-599): closed-browser Playwright errors, other Playwright
errors, and generic exceptions each produce their error string. -/
def runErrorMsg : PyErr → String
  | .pw m =>
    if isClosedErr m then "Browser or page closed unexpectedly during test execution"
    else "Playwright error: " ++ m
  | .exn m => m

/-- Embedding of `PlaywrightAmazonExecutor.execute_specification` (lines 549-605):
launch the browser, run every scenario sequentially, compute the
summary and derive the overall status from the counts
(failed==0 → passed; passed==0 → failed; else partial); any exception is
converted by the run-level handler into a failed result with an error
field, and the `finally` block always appends the `close_browser` call. -/
def execute_specification (env : RunEnv) (spec : Specification) :
    SpecificationResult × List RunAction :=
  let res0 : SpecificationResult :=
    { feature := spec.feature, configuration := spec.configuration
      scenarios := [], status := "pending" }
  let (res, acts) :=
    match env.launch with
    | .error e =>
      ({ res0 with status := "failed", error := some (runErrorMsg e) },
        [RunAction.initBrowser])
    | .ok _ =>
      let results := spec.scenarios.mapIdx (fun i sc => env.runScenario i sc)
      let passed := results.countP (fun s => s.status = "passed")
      let failed := results.countP (fun s => s.status = "failed")
      let total := results.length
      let summary : Summary :=
        { total := total, passed := passed, failed := failed
          pass_rate := formatPercent passed total }
      let status :=
        if failed = 0 then "passed"
        else if passed = 0 then "failed"
        else "partial"
      ({ res0 with scenarios := results, summary := some summary, status := status },
        RunAction.initBrowser :: (List.range results.length).map RunAction.runScenarioAt)
  (res, acts ++ [RunAction.closeBrowser])

end PlaywrightExec

namespace PlaywrightExec

/-- One action of `initialize_browser`, recorded in order: starting
Playwright, launching the browser (with the headless flag in force),
creating a context, page-creation attempt `i` (1-based), the guarded
close of a failed page, the backoff sleep of `i` seconds, the one-time
headless relaunch, and the `close_browser` cleanup of the outer
exception handler. -/
inductive InitAction where
  | startPlaywright
  | launchBrowser (headless : Bool)
  | newContext
  | pageAttempt (i : Nat)
  | closeFailedPage
  | backoffSleep (seconds : Nat)
  | relaunchHeadless
  | cleanupClose
deriving DecidableEq, Repr

/-- Environment of one `initialize_browser` call: the outcomes of
starting Playwright, the initial browser launch, context creation, each
0-based page-creation attempt (page creation plus its stabilization
checks), the headless relaunch and its fresh context, and the
platform/display facts consulted by the headed-mode downgrade. -/
structure InitEnv where
  startRes : Except String Unit := .ok ()
  launchRes : Except String Unit := .ok ()
  contextRes : Except String Unit := .ok ()
  newPage : Nat → Except String Unit
  relaunchRes : Except String Unit := .ok ()
  recontextRes : Except String Unit := .ok ()
  platformIsWindows : Bool := false
  displaySet : Bool := false

/-- The configuration keys `initialize_browser` reads. -/
structure InitConfig where
  headless : Bool := false
  browser : String := "chromium"
  timeout : Nat := 30000
deriving DecidableEq, Repr

/-- The headless flag after the display check (lines 43-52): a headed
request is silently downgraded to headless on non-Windows platforms
without a DISPLAY variable. -/
def effectiveHeadless (env : InitEnv) (config : InitConfig) : Bool :=
  let headless := config.headless
  if !headless && !env.platformIsWindows && !env.displaySet then true
  else headless

/-- The page-creation retry loop of `initialize_browser` (lines 113-191):
up to `max_page_retries = 3` attempts; after a failed attempt the failed
page is closed under a guard, and if another attempt remains the loop
sleeps `attempt_index` seconds and — exactly on the second failed
attempt while still headed — closes the browser, relaunches it headless
and recreates the context before continuing.  `fuel` is the number of
remaining iterations.  Returns the action trace, whether a page was
created, the last page-creation error, and an exception escaping the
loop (a relaunch or recontext failure propagates uncaught). -/
def pageRetryLoop (env : InitEnv) :
    Nat → Nat → Bool → Option String → List InitAction →
    List InitAction × Bool × Option String × Option String
  | _attempt, 0, _headless, lastErr, acc => (acc, false, lastErr, none)
  | attempt, fuel + 1, headless, lastErr, acc =>
    match env.newPage attempt with
    | .ok _ => (acc ++ [.pageAttempt (attempt + 1)], true, lastErr, none)
    | .error m =>
      let acc := acc ++ [.pageAttempt (attempt + 1), .closeFailedPage]
      if attempt < 3 - 1 then
        let acc := acc ++ [.backoffSleep (attempt + 1)]
        if !headless && attempt == 1 then
          let acc := acc ++ [.relaunchHeadless]
          match env.relaunchRes with
          | .error m2 => (acc, false, some m, some m2)
          | .ok _ =>
            let acc := acc ++ [.newContext]
            match env.recontextRes with
            | .error m3 => (acc, false, some m, some m3)
            | .ok _ => pageRetryLoop env (attempt + 1) fuel true (some m) acc
        else pageRetryLoop env (attempt + 1) fuel headless (some m) acc
      else (acc, false, some m, none)

/-- Python `str` of the optional last page error (`str(None)` is
`"None"`). -/
def pyStrOpt : Option String → String
  | none => "None"
  | some s => s

/-- Embedding of `PlaywrightAmazonExecutor.initialize_browser` (lines 28-212): start
Playwright, launch the browser with the effective headless flag, create
the context, then run the page-creation retry loop; if no page was
created raise `Failed to create page after 3 attempts: ...` with the
last underlying error.  Every exception escaping the body reaches the
outer handler, which calls `close_browser` before re-raising. -/
def initialize_browser (env : InitEnv) (config : InitConfig) :
    List InitAction × Except String Unit :=
  match env.startRes with
  | .error m => ([.startPlaywright, .cleanupClose], .error m)
  | .ok _ =>
    let headless := effectiveHeadless env config
    match env.launchRes with
    | .error m =>
      ([.startPlaywright, .launchBrowser headless, .cleanupClose], .error m)
    | .ok _ =>
      match env.contextRes with
      | .error m =>
        ([.startPlaywright, .launchBrowser headless, .newContext, .cleanupClose],
          .error ("Failed to create browser context: " ++ m))
      | .ok _ =>
        let pre : List InitAction :=
          [.startPlaywright, .launchBrowser headless, .newContext]
        match pageRetryLoop env 0 3 headless none [] with
        | (acc, _created, _lastErr, some raised) =>
          (pre ++ acc ++ [.cleanupClose], .error raised)
        | (acc, true, _lastErr, none) => (pre ++ acc, .ok ())
        | (acc, false, lastErr, none) =>
          (pre ++ acc ++ [.cleanupClose],
            .error ("Failed to create page after 3 attempts: " ++ pyStrOpt lastErr))

/-- The four resource layers of `close_browser` as the session sees
them: presence of the attribute (`self.page is not None`, etc.) and the
closed/stopped state of the underlying resource (`page.is_closed()`,
`browser.is_connected()`, and whether the context was already closed or
the driver already stopped). -/
structure Session where
  pagePresent : Bool
  pageClosed : Bool
  ctxPresent : Bool
  ctxClosed : Bool
  browserPresent : Bool
  browserConnected : Bool
  pwPresent : Bool
  pwStopped : Bool
deriving DecidableEq, Repr

/-- Whether each layer close call raises when it actually has a live
resource to close. -/
structure CloseOracle where
  pageErr : Bool
  ctxErr : Bool
  browserErr : Bool
  pwErr : Bool
deriving DecidableEq, Repr

/-- One event of `close_browser`: a close/stop call issued to a layer,
or the actual release of a live underlying resource.  A close call on an
already-closed resource releases nothing (and any error it raises is
swallowed by the per-layer guard). -/
inductive CloseEvent where
  | pageCloseCall
  | ctxCloseCall
  | browserCloseCall
  | pwStopCall
  | releasePage
  | releaseCtx
  | releaseBrowser
  | releasePw
deriving DecidableEq, Repr

/-- The page layer of `close_browser` (lines 232-237): call
`page.close()` only when the page exists and is not closed; any
exception is caught and logged. -/
def closePageLayer (o : CloseOracle) (s : Session) : Session × List CloseEvent :=
  if s.pagePresent then
    if !s.pageClosed then
      if o.pageErr then (s, [.pageCloseCall])
      else ({ s with pageClosed := true }, [.pageCloseCall, .releasePage])
    else (s, [])
  else (s, [])

/-- The context layer of `close_browser` (lines 240-244): call
`context.close()` whenever the attribute is set — there is no
already-closed guard, so the call is issued again on a second
invocation, where it releases nothing; any exception is caught. -/
def closeCtxLayer (o : CloseOracle) (s : Session) : Session × List CloseEvent :=
  if s.ctxPresent then
    if s.ctxClosed then (s, [.ctxCloseCall])
    else if o.ctxErr then (s, [.ctxCloseCall])
    else ({ s with ctxClosed := true }, [.ctxCloseCall, .releaseCtx])
  else (s, [])

/-- The browser layer of `close_browser` (lines 247-252): call
`browser.close()` only when the attribute is set and the browser is
still connected; any exception is caught. -/
def closeBrowserLayer (o : CloseOracle) (s : Session) : Session × List CloseEvent :=
  if s.browserPresent then
    if s.browserConnected then
      if o.browserErr then (s, [.browserCloseCall])
      else ({ s with browserConnected := false }, [.browserCloseCall, .releaseBrowser])
    else (s, [])
  else (s, [])

/-- The driver layer of `close_browser` (lines 255-259): call
`playwright.stop()` whenever the attribute is set; any exception is
caught. -/
def closePwLayer (o : CloseOracle) (s : Session) : Session × List CloseEvent :=
  if s.pwPresent then
    if s.pwStopped then (s, [.pwStopCall])
    else if o.pwErr then (s, [.pwStopCall])
    else ({ s with pwStopped := true }, [.pwStopCall, .releasePw])
  else (s, [])

/-- Embedding of `PlaywrightAmazonExecutor.close_browser` (lines 228-263): close
page, context, browser and driver in order, each under its own
`try/except` guard (and the whole body under one more), so every
exception is swallowed and the function always returns. -/
def close_browser (o : CloseOracle) (s : Session) : Session × List CloseEvent :=
  let (s, t1) := closePageLayer o s
  let (s, t2) := closeCtxLayer o s
  let (s, t3) := closeBrowserLayer o s
  let (s, t4) := closePwLayer o s
  (s, t1 ++ t2 ++ t3 ++ t4)

end PlaywrightExec

namespace PlaywrightExec

theorem runThenLoop_char (rs : Step → String → StepResult) (l : List Step) :
    ∀ (res : ScenarioResult) (log : List String),
    runThenLoop rs res log l =
      ({ res with
          steps := res.steps ++ l.map (fun s => rs s "then")
          status :=
            if l.any (fun s => (rs s "then").status = "failed") then "failed"
            else res.status },
        log ++ l.map (fun _ => "then")) := by
  induction l with
  | nil => intro res log; simp [runThenLoop]
  | cons s rest ih =>
    intro res log
    by_cases h : (rs s "then").status = "failed"
    · simp only [runThenLoop, h, if_pos, if_true, ih, List.map_cons, List.any_cons]
      simp [h]
    · simp only [runThenLoop, h, if_false, ih, List.map_cons, List.any_cons]
      simp [h]

theorem runGivenLoop_flag (rs : Step → String → StepResult) (l : List Step) :
    ∀ (res : ScenarioResult) (log : List String),
    (runGivenLoop rs res log l).2.2 =
      l.any (fun s => (rs s "given").status = "failed") := by
  induction l with
  | nil => intro res log; simp [runGivenLoop]
  | cons s rest ih =>
    intro res log
    by_cases h : (rs s "given").status = "failed"
    · simp [runGivenLoop, h]
    · simp [runGivenLoop, h, ih]

theorem runGivenLoop_all_ok (rs : Step → String → StepResult) (l : List Step) :
    ∀ (res : ScenarioResult) (log : List String),
    (∀ s ∈ l, (rs s "given").status ≠ "failed") →
    runGivenLoop rs res log l =
      ({ res with steps := res.steps ++ l.map (fun s => rs s "given") },
        log ++ l.map (fun _ => "given"), false) := by
  induction l with
  | nil => intro res log _; simp [runGivenLoop]
  | cons s rest ih =>
    intro res log h
    have hs : (rs s "given").status ≠ "failed" := h s (by simp)
    have hr : ∀ x ∈ rest, (rs x "given").status ≠ "failed" := by
      intro x hx; exact h x (by simp [hx])
    simp [runGivenLoop, hs, ih _ _ hr]

theorem runGivenLoop_log (rs : Step → String → StepResult) (l : List Step) :
    ∀ (res : ScenarioResult) (log : List String),
    ∀ x ∈ (runGivenLoop rs res log l).2.1, x ∈ log ∨ x = "given" := by
  induction l with
  | nil => intro res log x hx; simp [runGivenLoop] at hx; exact Or.inl hx
  | cons s rest ih =>
    intro res log x hx
    by_cases h : (rs s "given").status = "failed"
    · simp [runGivenLoop, h] at hx
      rcases hx with hx | hx
      · exact Or.inl hx
      · exact Or.inr hx
    · simp only [runGivenLoop, h, if_false] at hx
      rcases ih _ _ x hx with hx' | hx'
      · simp at hx'
        rcases hx' with hx' | hx'
        · exact Or.inl hx'
        · exact Or.inr hx'
      · exact Or.inr hx'

theorem runGivenLoop_failed_status (rs : Step → String → StepResult) (l : List Step) :
    ∀ (res : ScenarioResult) (log : List String),
    (runGivenLoop rs res log l).2.2 = true →
    (runGivenLoop rs res log l).1.status = "failed" := by
  induction l with
  | nil => intro res log h; simp [runGivenLoop] at h
  | cons s rest ih =>
    intro res log h
    by_cases hs : (rs s "given").status = "failed"
    · simp only [runGivenLoop, hs, if_true]
      split <;> rfl
    · simp only [runGivenLoop, hs, if_false] at h ⊢
      exact ih _ _ h

theorem runWhenLoop_flag (rs : Step → String → StepResult) (l : List Step) :
    ∀ (res : ScenarioResult) (log : List String),
    (runWhenLoop rs res log l).2.2 =
      l.any (fun s => (rs s "when").status = "failed") := by
  induction l with
  | nil => intro res log; simp [runWhenLoop]
  | cons s rest ih =>
    intro res log
    by_cases h : (rs s "when").status = "failed"
    · simp [runWhenLoop, h]
    · simp [runWhenLoop, h, ih]

theorem runWhenLoop_all_ok (rs : Step → String → StepResult) (l : List Step) :
    ∀ (res : ScenarioResult) (log : List String),
    (∀ s ∈ l, (rs s "when").status ≠ "failed") →
    runWhenLoop rs res log l =
      ({ res with steps := res.steps ++ l.map (fun s => rs s "when") },
        log ++ l.map (fun _ => "when"), false) := by
  induction l with
  | nil => intro res log _; simp [runWhenLoop]
  | cons s rest ih =>
    intro res log h
    have hs : (rs s "when").status ≠ "failed" := h s (by simp)
    have hr : ∀ x ∈ rest, (rs x "when").status ≠ "failed" := by
      intro x hx; exact h x (by simp [hx])
    simp [runWhenLoop, hs, ih _ _ hr]

theorem runWhenLoop_log (rs : Step → String → StepResult) (l : List Step) :
    ∀ (res : ScenarioResult) (log : List String),
    ∀ x ∈ (runWhenLoop rs res log l).2.1, x ∈ log ∨ x = "when" := by
  induction l with
  | nil => intro res log x hx; simp [runWhenLoop] at hx; exact Or.inl hx
  | cons s rest ih =>
    intro res log x hx
    by_cases h : (rs s "when").status = "failed"
    · simp [runWhenLoop, h] at hx
      rcases hx with hx | hx
      · exact Or.inl hx
      · exact Or.inr hx
    · simp only [runWhenLoop, h, if_false] at hx
      rcases ih _ _ x hx with hx' | hx'
      · simp at hx'
        rcases hx' with hx' | hx'
        · exact Or.inl hx'
        · exact Or.inr hx'
      · exact Or.inr hx'

theorem runWhenLoop_failed_status (rs : Step → String → StepResult) (l : List Step) :
    ∀ (res : ScenarioResult) (log : List String),
    (runWhenLoop rs res log l).2.2 = true →
    (runWhenLoop rs res log l).1.status = "failed" := by
  induction l with
  | nil => intro res log h; simp [runWhenLoop] at h
  | cons s rest ih =>
    intro res log h
    by_cases hs : (rs s "when").status = "failed"
    · simp [runWhenLoop, hs]
    · simp only [runWhenLoop, hs, if_false] at h ⊢
      exact ih _ _ h

end PlaywrightExec

namespace PlaywrightExec

/-- A healthy executor state: no crash, a connected browser, an open
page. -/
def healthySt : ExecState :=
  { browser_crashed := false, browser := some ⟨true⟩, page := some ⟨false⟩ }

/-- Concrete step environment: navigation succeeds with HTTP 200, the
visibility probe reports not-visible, and the page URL is the example
page. -/
def cexEnv : StepEnv :=
  { self := healthySt, nav := fun _ => .ok (some 200)
    visibleRes := .ok false, pageUrl := "https://example.com" }

/-- A Given navigation step to the example page. -/
def navStep : Step := { step := some "nav", url := some "https://example.com" }

/-- A Then assertion that fails under `cexEnv` (element not visible). -/
def thenFail : Step :=
  { step := some "tf", validation_type := some "element_visible"
    element := some { locator := some "#a" } }

/-- A Then assertion that passes under `cexEnv` (URL contains `exa`). -/
def thenPass : Step :=
  { step := some "tp", validation_type := some "url_contains"
    expected_text := some "exa" }

/-- A scenario whose Given step passes and whose two Then steps fail and
pass respectively under `cexEnv`. -/
def cexScenario : Scenario := { given := [navStep], thenS := [thenFail, thenPass] }

/-- The step runner induced by `execute_step` under `cexEnv`. -/
def cexRunStep (s : Step) (t : String) : StepResult := (execute_step cexEnv s t).1

/-- C1, counterexample to the claim as stated: a concrete scenario whose
Given step passes (there are no When steps), whose first Then step fails
and whose second Then step passes; both Then steps do execute, but the
resulting scenario status is `failed`, not `partial` — the Then loop of
`execute_scenario` (line 525) sets the status to `failed` as soon as any
Then step fails, so the `partial` branch of line 531 is unreachable in
this situation. -/
theorem c1_counterexample :
    (cexRunStep navStep "given").status = "passed"
    ∧ cexScenario.whenS = []
    ∧ (cexRunStep thenFail "then").status = "failed"
    ∧ (cexRunStep thenPass "then").status = "passed"
    ∧ (execute_scenario cexRunStep healthySt cexScenario).2 = ["given", "then", "then"]
    ∧ (execute_scenario cexRunStep healthySt cexScenario).1.status = "failed"
    ∧ (execute_scenario cexRunStep healthySt cexScenario).1.status ≠ "partial" := by
  refine ⟨by decide, rfl, by decide, by decide, by decide, by decide, by decide⟩

/-- C1 (amended): in every scenario in which all Given and When steps
pass and at least one Then step fails while at least one other Then step
passes, `execute_scenario` still executes every Then step — the Then
phase never short-circuits — but the returned `ScenarioResult` has
status `failed` (not `partial` as the claim states): any Then failure
sets the scenario status to `failed` inside the Then loop. -/
theorem c1_amended (rs : Step → String → StepResult) (st : ExecState)
    (sc : Scenario) (b : BrowserRef)
    (hb : st.browser = some b) (hc : b.is_connected = true)
    (hg : ∀ s ∈ sc.given, (rs s "given").status = "passed")
    (hw : ∀ s ∈ sc.whenS, (rs s "when").status = "passed")
    (ht1 : ∃ s ∈ sc.thenS, (rs s "then").status = "failed")
    (_ht2 : ∃ s ∈ sc.thenS, (rs s "then").status = "passed") :
    (execute_scenario rs st sc).2 =
      sc.given.map (fun _ => "given") ++ sc.whenS.map (fun _ => "when")
        ++ sc.thenS.map (fun _ => "then")
    ∧ (execute_scenario rs st sc).1.steps =
      sc.given.map (fun s => rs s "given") ++ sc.whenS.map (fun s => rs s "when")
        ++ sc.thenS.map (fun s => rs s "then")
    ∧ (execute_scenario rs st sc).1.status = "failed" := by
  have hg' : ∀ s ∈ sc.given, (rs s "given").status ≠ "failed" := by
    intro s hs; rw [hg s hs]; decide
  have hw' : ∀ s ∈ sc.whenS, (rs s "when").status ≠ "failed" := by
    intro s hs; rw [hw s hs]; decide
  obtain ⟨t, ht, hts⟩ := ht1
  have hany : sc.thenS.any (fun s => (rs s "then").status = "failed") = true :=
    List.any_eq_true.mpr ⟨t, ht, by simp [hts]⟩
  have hall : (sc.given.map (fun s => rs s "given") ++ sc.whenS.map (fun s => rs s "when")
      ++ sc.thenS.map (fun s => rs s "then")).all (fun s => s.status = "passed") = false := by
    apply List.all_eq_false.mpr
    have hmem : rs t "then" ∈ sc.thenS.map (fun s => rs s "then") :=
      List.mem_map.mpr ⟨t, ht, rfl⟩
    refine ⟨rs t "then", ?_, by simp [hts]⟩
    simp only [List.mem_append]
    exact Or.inr hmem
  simp only [execute_scenario, hb, hc]
  rw [runGivenLoop_all_ok rs sc.given _ _ hg']
  simp only []
  rw [runWhenLoop_all_ok rs sc.whenS _ _ hw']
  simp only []
  rw [runThenLoop_char rs sc.thenS]
  simp only [scenarioInit, hany, if_true, List.nil_append, List.append_assoc] at *
  simp [hall, hany]

/-- C1, witness for the amended theorem at the concrete counterexample
scenario. -/
theorem c1_amended_witness :
    (execute_scenario cexRunStep healthySt cexScenario).2 = ["given", "then", "then"]
    ∧ (execute_scenario cexRunStep healthySt cexScenario).1.status = "failed" := by
  have h := c1_amended cexRunStep healthySt cexScenario ⟨true⟩ rfl rfl
    (by decide) (by decide) ⟨thenFail, by decide, by decide⟩ ⟨thenPass, by decide, by decide⟩
  exact ⟨h.1, h.2.2⟩

end PlaywrightExec

namespace PlaywrightExec

/-- C2: whenever some Given step of a scenario would produce a failed
`StepResult`, `execute_scenario` returns a result with status `failed`
and executes zero When and zero Then steps (no `when` or `then` entry
appears in the execution log); and whenever some When step would produce
a failed `StepResult`, it returns status `failed` and executes zero Then
steps. -/
theorem c2_short_circuit (rs : Step → String → StepResult) (st : ExecState)
    (sc : Scenario) :
    ((∃ s ∈ sc.given, (rs s "given").status = "failed") →
      (execute_scenario rs st sc).1.status = "failed"
      ∧ "when" ∉ (execute_scenario rs st sc).2
      ∧ "then" ∉ (execute_scenario rs st sc).2)
    ∧ ((∃ s ∈ sc.whenS, (rs s "when").status = "failed") →
      (execute_scenario rs st sc).1.status = "failed"
      ∧ "then" ∉ (execute_scenario rs st sc).2) := by
  by_cases hlost : (match st.browser with
      | none => true
      | some b => !b.is_connected) = true
  · constructor
    · intro _
      refine ⟨?_, ?_, ?_⟩ <;> simp [execute_scenario, hlost]
    · intro _
      refine ⟨?_, ?_⟩ <;> simp [execute_scenario, hlost]
  · have hG := runGivenLoop_flag rs sc.given (scenarioInit sc) []
    by_cases hga : sc.given.any (fun s => (rs s "given").status = "failed") = true
    · -- a Given step fails: both conclusions follow
      have hflag : (runGivenLoop rs (scenarioInit sc) [] sc.given).2.2 = true := by
        rw [hG, hga]
      have hst := runGivenLoop_failed_status rs sc.given (scenarioInit sc) [] hflag
      have hlog := runGivenLoop_log rs sc.given (scenarioInit sc) []
      have hmain : execute_scenario rs st sc =
          ((runGivenLoop rs (scenarioInit sc) [] sc.given).1,
            (runGivenLoop rs (scenarioInit sc) [] sc.given).2.1) := by
        simp only [execute_scenario, hlost, if_false, Bool.not_eq_true]
        generalize hE : runGivenLoop rs (scenarioInit sc) [] sc.given = G
        rw [hE] at hflag
        obtain ⟨r, lg, fl⟩ := G
        simp only at hflag
        subst hflag
        simp
      have hwhen : "when" ∉ (execute_scenario rs st sc).2 := by
        rw [hmain]
        intro hmem
        rcases hlog _ hmem with h | h
        · simp at h
        · exact absurd h (by decide)
      have hthen : "then" ∉ (execute_scenario rs st sc).2 := by
        rw [hmain]
        intro hmem
        rcases hlog _ hmem with h | h
        · simp at h
        · exact absurd h (by decide)
      have hfst : (execute_scenario rs st sc).1.status = "failed" := by
        rw [hmain]; exact hst
      exact ⟨fun _ => ⟨hfst, hwhen, hthen⟩, fun _ => ⟨hfst, hthen⟩⟩
    · -- no Given step fails
      have hga' : ∀ s ∈ sc.given, (rs s "given").status ≠ "failed" := by
        intro s hs hfail
        exact hga (List.any_eq_true.mpr ⟨s, hs, by simp [hfail]⟩)
      constructor
      · rintro ⟨s, hs, hfail⟩
        exact absurd hfail (hga' s hs)
      · rintro ⟨s, hs, hfail⟩
        have hwany : sc.whenS.any (fun x => (rs x "when").status = "failed") = true :=
          List.any_eq_true.mpr ⟨s, hs, by simp [hfail]⟩
        have hW := runWhenLoop_flag rs sc.whenS
          ({ scenarioInit sc with
              steps := (scenarioInit sc).steps ++ sc.given.map (fun x => rs x "given") })
          ([] ++ sc.given.map (fun _ => "given"))
        have hflagW : (runWhenLoop rs
            ({ scenarioInit sc with
                steps := (scenarioInit sc).steps ++ sc.given.map (fun x => rs x "given") })
            ([] ++ sc.given.map (fun _ => "given")) sc.whenS).2.2 = true := by
          rw [hW, hwany]
        have hstW := runWhenLoop_failed_status rs sc.whenS _ _ hflagW
        have hlogW := runWhenLoop_log rs sc.whenS
          ({ scenarioInit sc with
              steps := (scenarioInit sc).steps ++ sc.given.map (fun x => rs x "given") })
          ([] ++ sc.given.map (fun _ => "given"))
        have hmain : execute_scenario rs st sc =
            ((runWhenLoop rs
              ({ scenarioInit sc with
                  steps := (scenarioInit sc).steps ++ sc.given.map (fun x => rs x "given") })
              ([] ++ sc.given.map (fun _ => "given")) sc.whenS).1,
              (runWhenLoop rs
              ({ scenarioInit sc with
                  steps := (scenarioInit sc).steps ++ sc.given.map (fun x => rs x "given") })
              ([] ++ sc.given.map (fun _ => "given")) sc.whenS).2.1) := by
          simp only [execute_scenario, hlost, if_false, Bool.not_eq_true]
          rw [runGivenLoop_all_ok rs sc.given _ _ hga']
          simp only []
          generalize hE : runWhenLoop rs
              ({ scenarioInit sc with
                  steps := (scenarioInit sc).steps ++ sc.given.map (fun x => rs x "given") })
              ([] ++ sc.given.map (fun _ => "given")) sc.whenS = G
          rw [hE] at hflagW
          obtain ⟨r, lg, fl⟩ := G
          simp only at hflagW
          subst hflagW
          simp
        refine ⟨?_, ?_⟩
        · rw [hmain]; exact hstW
        · rw [hmain]
          intro hmem
          rcases hlogW _ hmem with h | h
          · simp at h
          · exact absurd h (by decide)

end PlaywrightExec

namespace PlaywrightExec

/-- Concrete step environment whose navigations always fail with a
generic (non-closed) error. -/
def c2Env : StepEnv := { self := healthySt, nav := fun _ => .error (.exn "net::ERR_FAILED") }

/-- A When click step. -/
def clickStep : Step :=
  { step := some "click", action := some "click", element := some { locator := some "#b" } }

/-- A scenario whose Given navigation fails under `c2Env`. -/
def c2Scenario : Scenario :=
  { given := [navStep], whenS := [clickStep], thenS := [thenPass] }

/-- C2, witness: under `c2Env` the Given navigation of `c2Scenario`
produces a failed result, and the scenario run is `failed` with no When
and no Then step executed. -/
theorem c2_short_circuit_witness :
    (execute_scenario (fun s t => (execute_step c2Env s t).1) healthySt c2Scenario).1.status = "failed"
    ∧ "when" ∉ (execute_scenario (fun s t => (execute_step c2Env s t).1) healthySt c2Scenario).2
    ∧ "then" ∉ (execute_scenario (fun s t => (execute_step c2Env s t).1) healthySt c2Scenario).2 :=
  (c2_short_circuit (fun s t => (execute_step c2Env s t).1) healthySt c2Scenario).1
    ⟨navStep, by decide, by decide⟩

/-- C10: a When step whose action string is none of `search`, `click`,
`navigate` makes `execute_step` perform no browser action and return a
result whose status is still `pending`; a Then step whose
`validation_type` matches no known validation and that carries no
trailing action likewise stays `pending` with no browser action; and a
scenario none of whose Given/When results is `failed` — in particular
one made of such pending steps — executes all its steps, so a pending
step never short-circuits the scenario. -/
theorem c10_unknown_action_pending :
    (∀ (env : StepEnv) (step : Step),
      (check_browser_state env.self).1 = true →
      step.action ≠ some "search" → step.action ≠ some "click" →
      step.action ≠ some "navigate" →
      (execute_step env step "when").1.status = "pending"
      ∧ (execute_step env step "when").2 = [])
    ∧ (∀ (env : StepEnv) (step : Step),
      (check_browser_state env.self).1 = true →
      step.validation_type ≠ some "element_visible" →
      step.validation_type ≠ some "element_exists" →
      step.validation_type ≠ some "cart_items_count" →
      step.validation_type ≠ some "text_content" →
      step.validation_type ≠ some "url_contains" →
      step.action = none →
      (execute_step env step "then").1.status = "pending"
      ∧ (execute_step env step "then").2 = [])
    ∧ (∀ (rs : Step → String → StepResult) (st : ExecState) (b : BrowserRef)
        (sc : Scenario),
      st.browser = some b → b.is_connected = true →
      (∀ s ∈ sc.given, (rs s "given").status ≠ "failed") →
      (∀ s ∈ sc.whenS, (rs s "when").status ≠ "failed") →
      (execute_scenario rs st sc).2 =
        sc.given.map (fun _ => "given") ++ sc.whenS.map (fun _ => "when")
          ++ sc.thenS.map (fun _ => "then")) := by
  refine ⟨?_, ?_, ?_⟩
  · intro env step hc h1 h2 h3
    constructor <;>
      simp [execute_step, executeStepBody, whenBody, stepExceptHandler, stepInit, hc, h1, h2, h3]
  · intro env step hc h1 h2 h3 h4 h5 ha
    constructor <;>
      simp [execute_step, executeStepBody, thenBody, thenValidation, stepExceptHandler,
        stepInit, hc, h1, h2, h3, h4, h5, ha]
  · intro rs st b sc hb hc hg hw
    simp only [execute_scenario, hb, hc]
    rw [runGivenLoop_all_ok rs sc.given _ _ hg]
    simp only []
    rw [runWhenLoop_all_ok rs sc.whenS _ _ hw]
    simp only []
    rw [runThenLoop_char rs sc.thenS]
    simp [List.append_assoc]

/-- A When step with an unrecognized action string. -/
def hoverStep : Step := { step := some "hover", action := some "hover" }

/-- C10, witness: the unrecognized `hover` action at a healthy browser
yields a pending result with no browser action performed. -/
theorem c10_unknown_action_pending_witness :
    (execute_step cexEnv hoverStep "when").1.status = "pending"
    ∧ (execute_step cexEnv hoverStep "when").2 = [] :=
  c10_unknown_action_pending.1 cexEnv hoverStep (by decide)
    (by decide) (by decide) (by decide)

end PlaywrightExec

namespace PlaywrightExec

/-- C6: whenever the pre-step health check reports a non-OK state,
`execute_step` performs no browser action and returns a failed
`StepResult` whose error and message carry the specific health problem;
and the health problem reported is the one matching the state (crashed /
browser not initialized / disconnected / page not initialized / page
closed, checked in that order). -/
theorem c6_health_gate (env : StepEnv) (step : Step) (t : String)
    (h : (check_browser_state env.self).1 = false) :
    execute_step env step t =
      ({ step := step.step.getD "Unknown step", type := t, status := "failed"
         message := some ("Error executing step: "
           ++ ("Cannot execute step: " ++ (check_browser_state env.self).2))
         error := some ("Cannot execute step: " ++ (check_browser_state env.self).2)
         response_code := none, response_status := none }, [])
    ∧ (env.self.browser_crashed = true →
        (check_browser_state env.self).2 = "Browser has crashed")
    ∧ (env.self.browser_crashed = false → env.self.browser = none →
        (check_browser_state env.self).2 = "Browser not initialized")
    ∧ (∀ b, env.self.browser_crashed = false → env.self.browser = some b →
        b.is_connected = false →
        (check_browser_state env.self).2 = "Browser disconnected")
    ∧ (∀ b, env.self.browser_crashed = false → env.self.browser = some b →
        b.is_connected = true → env.self.page = none →
        (check_browser_state env.self).2 = "Page not initialized")
    ∧ (∀ b p, env.self.browser_crashed = false → env.self.browser = some b →
        b.is_connected = true → env.self.page = some p → p.is_closed = true →
        (check_browser_state env.self).2 = "Page is closed") := by
  refine ⟨?_, ?_, ?_, ?_, ?_, ?_⟩
  · simp [execute_step, executeStepBody, stepExceptHandler, stepInit, h]
  · intro hcr; simp [check_browser_state, hcr]
  · intro hcr hb; simp [check_browser_state, hcr, hb]
  · intro b hcr hb hcon; simp [check_browser_state, hcr, hb, hcon]
  · intro b hcr hb hcon hp; simp [check_browser_state, hcr, hb, hcon, hp]
  · intro b p hcr hb hcon hp hcl; simp [check_browser_state, hcr, hb, hcon, hp, hcl]

/-- A step environment whose executor state carries the crash flag. -/
def crashedEnv : StepEnv :=
  { self := { browser_crashed := true, browser := some ⟨true⟩, page := some ⟨false⟩ }
    nav := fun _ => .ok none }

/-- C6, witness: with the crash flag set, a navigation step fails with
the message naming the crash and performs no browser action. -/
theorem c6_health_gate_witness :
    (execute_step crashedEnv navStep "given").1.status = "failed"
    ∧ (execute_step crashedEnv navStep "given").1.message =
        some "Error executing step: Cannot execute step: Browser has crashed"
    ∧ (execute_step crashedEnv navStep "given").2 = [] := by
  have h := c6_health_gate crashedEnv navStep "given" (by decide)
  refine ⟨by rw [h.1], by rw [h.1]; decide, by rw [h.1]⟩

end PlaywrightExec

namespace PlaywrightExec

/-- A navigation attempt outcome on which the loop retries: a generic
exception, or a Playwright error that is not of the closed-browser
class. -/
def retryableNav (o : Except PyErr (Option Int)) : Bool :=
  match o with
  | .ok _ => false
  | .error (.pw m) => !isClosedErr m
  | .error (.exn _) => true

/-- Number of `page.goto` calls in a trace. -/
def gotoCount (l : List Action) : Nat :=
  l.countP (fun a => match a with | .goto _ => true | _ => false)

/-- The trace left by `k` consecutive failed-and-retried navigation
attempts: each one is a `goto` followed by the fixed 2-second sleep. -/
def navAttemptsTrace (u : String) : Nat → List Action
  | 0 => []
  | k + 1 => [Action.goto u, Action.sleepSec 2] ++ navAttemptsTrace u k

theorem navAttemptOutcome_acts (env : StepEnv) (u : String) (a : Nat) :
    (navAttemptOutcome env u a).1 = [] ∨ (navAttemptOutcome env u a).1 = [.goto u] := by
  unfold navAttemptOutcome
  dsimp only
  split_ifs <;> simp

theorem navAttemptOutcome_healthy (env : StepEnv) (u : String) (a : Nat)
    (b : BrowserRef) (p : PageRef)
    (hb : env.self.browser = some b) (hcon : b.is_connected = true)
    (hp : env.self.page = some p) (hcl : p.is_closed = false) :
    navAttemptOutcome env u a = ([.goto u], env.nav a) := by
  simp [navAttemptOutcome, hb, hcon, hp, hcl]

theorem navLoop_gotoCount (env : StepEnv) (u : String) (maxR : Nat) :
    ∀ (fuel attempt : Nat) (res : StepResult) (acc : List Action),
    gotoCount (navLoop env u maxR attempt fuel res acc).2.1 ≤ gotoCount acc + fuel := by
  intro fuel
  induction fuel with
  | zero => intro attempt res acc; simp [navLoop]
  | succ f ih =>
    intro attempt res acc
    simp only [navLoop]
    have hone : gotoCount (navAttemptOutcome env u attempt).1 ≤ 1 := by
      rcases navAttemptOutcome_acts env u attempt with h | h <;> simp [h, gotoCount]
    have happ : gotoCount (acc ++ (navAttemptOutcome env u attempt).1) ≤ gotoCount acc + 1 := by
      simp only [gotoCount, List.countP_append] at hone ⊢
      omega
    have happ2 : gotoCount (acc ++ (navAttemptOutcome env u attempt).1
        ++ [Action.sleepSec 2]) ≤ gotoCount acc + 1 := by
      simp only [gotoCount, List.countP_append] at hone ⊢
      simp
      omega
    rcases hout : (navAttemptOutcome env u attempt).2 with e | code
    case ok =>
      show gotoCount (acc ++ (navAttemptOutcome env u attempt).1) ≤ gotoCount acc + (f + 1)
      omega
    rcases e with m | m
    · by_cases hm : isClosedErr m = true
      · simp only [hm, if_true]
        show gotoCount (acc ++ (navAttemptOutcome env u attempt).1) ≤ gotoCount acc + (f + 1)
        omega
      · by_cases hlt : attempt < maxR - 1
        · have hrec := ih (attempt + 1) res
            (acc ++ (navAttemptOutcome env u attempt).1 ++ [Action.sleepSec 2])
          simp [hm, hlt]
          rw [← List.append_assoc]
          omega
        · simp [hm, hlt]
          omega
    · by_cases hlt : attempt < maxR - 1
      · have hrec := ih (attempt + 1) res
          (acc ++ (navAttemptOutcome env u attempt).1 ++ [Action.sleepSec 2])
        simp [hlt]
        rw [← List.append_assoc]
        omega
      · simp [hlt]
        omega

end PlaywrightExec

namespace PlaywrightExec

theorem stepExceptHandler_some_failed (env : StepEnv) (res : StepResult) (e : PyErr) :
    (stepExceptHandler env res (some e)).status = "failed" := by
  rcases e with m | m
  · simp only [stepExceptHandler]
    split_ifs <;> rfl
  · rfl

theorem check_ok (s : ExecState) (h : (check_browser_state s).1 = true) :
    s.browser_crashed = false ∧ ∃ b, s.browser = some b ∧ b.is_connected = true ∧
      ∃ p, s.page = some p ∧ p.is_closed = false := by
  obtain ⟨cr, br, pg⟩ := s
  cases cr
  case true => simp [check_browser_state] at h
  case false =>
    cases br with
    | none => simp [check_browser_state] at h
    | some b =>
      cases hb : b.is_connected with
      | false => simp [check_browser_state, hb] at h
      | true =>
        cases pg with
        | none => simp [check_browser_state, hb] at h
        | some p =>
          cases hp : p.is_closed with
          | true => simp [check_browser_state, hb, hp] at h
          | false => exact ⟨rfl, b, rfl, hb, p, rfl, hp⟩

theorem navLoop_ok_step (env : StepEnv) (u : String) (maxR attempt fuel : Nat)
    (res : StepResult) (acc : List Action) (b : BrowserRef) (p : PageRef)
    (hb : env.self.browser = some b) (hcon : b.is_connected = true)
    (hp : env.self.page = some p) (hcl : p.is_closed = false)
    (code : Option Int) (hnav : env.nav attempt = .ok code) :
    navLoop env u maxR attempt (fuel + 1) res acc =
      ({ res with
          status := "passed"
          message := some s!"Navigated to {u} (attempt {attempt + 1})"
          response_code := code
          response_status := some (respBucket code) },
        acc ++ [.goto u], none) := by
  simp [navLoop, navAttemptOutcome_healthy env u attempt b p hb hcon hp hcl, hnav]

theorem navLoop_closed_step (env : StepEnv) (u : String) (maxR attempt fuel : Nat)
    (res : StepResult) (acc : List Action) (b : BrowserRef) (p : PageRef)
    (hb : env.self.browser = some b) (hcon : b.is_connected = true)
    (hp : env.self.page = some p) (hcl : p.is_closed = false)
    (m : String) (hnav : env.nav attempt = .error (.pw m))
    (hm : isClosedErr m = true) :
    navLoop env u maxR attempt (fuel + 1) res acc =
      ({ res with
          status := "failed"
          error := some "Browser closed during navigation"
          message := some "The browser or page was closed unexpectedly during navigation. This may indicate a crash or external closure." },
        acc ++ [.goto u], some (.pw m)) := by
  simp [navLoop, navAttemptOutcome_healthy env u attempt b p hb hcon hp hcl, hnav, hm]

theorem navLoop_retry_step (env : StepEnv) (u : String) (maxR attempt fuel : Nat)
    (res : StepResult) (acc : List Action) (b : BrowserRef) (p : PageRef)
    (hb : env.self.browser = some b) (hcon : b.is_connected = true)
    (hp : env.self.page = some p) (hcl : p.is_closed = false)
    (hr : retryableNav (env.nav attempt) = true) (hlt : attempt < maxR - 1) :
    navLoop env u maxR attempt (fuel + 1) res acc =
      navLoop env u maxR (attempt + 1) fuel res (acc ++ [.goto u, .sleepSec 2]) := by
  rcases hnav : env.nav attempt with e | code
  · rcases e with m | m
    · rw [hnav] at hr
      simp only [retryableNav, Bool.not_eq_true'] at hr
      simp [navLoop, navAttemptOutcome_healthy env u attempt b p hb hcon hp hcl, hnav, hr, hlt]
    · simp [navLoop, navAttemptOutcome_healthy env u attempt b p hb hcon hp hcl, hnav, hlt]
  · rw [hnav] at hr
    simp [retryableNav] at hr

theorem navLoop_last_step (env : StepEnv) (u : String) (maxR attempt fuel : Nat)
    (res : StepResult) (acc : List Action) (b : BrowserRef) (p : PageRef)
    (hb : env.self.browser = some b) (hcon : b.is_connected = true)
    (hp : env.self.page = some p) (hcl : p.is_closed = false)
    (hr : retryableNav (env.nav attempt) = true) (hge : ¬ attempt < maxR - 1) :
    (navLoop env u maxR attempt (fuel + 1) res acc).2.1 = acc ++ [.goto u]
    ∧ (navLoop env u maxR attempt (fuel + 1) res acc).1.status = "failed"
    ∧ ∃ e, (navLoop env u maxR attempt (fuel + 1) res acc).2.2 = some e := by
  rcases hnav : env.nav attempt with e | code
  · rcases e with m | m
    · rw [hnav] at hr
      simp only [retryableNav, Bool.not_eq_true'] at hr
      refine ⟨?_, ?_, .pw m, ?_⟩ <;>
        simp [navLoop, navAttemptOutcome_healthy env u attempt b p hb hcon hp hcl,
          hnav, hr, hge]
    · refine ⟨?_, ?_, .exn m, ?_⟩ <;>
        simp [navLoop, navAttemptOutcome_healthy env u attempt b p hb hcon hp hcl,
          hnav, hge]
  · rw [hnav] at hr
    simp [retryableNav] at hr

theorem navLoop_skip_k (env : StepEnv) (u : String) (maxR : Nat) (b : BrowserRef)
    (p : PageRef) (hb : env.self.browser = some b) (hcon : b.is_connected = true)
    (hp : env.self.page = some p) (hcl : p.is_closed = false) :
    ∀ (k attempt fuel : Nat) (res : StepResult) (acc : List Action),
    attempt + fuel = maxR → attempt + k < maxR →
    (∀ j, j < k → retryableNav (env.nav (attempt + j)) = true) →
    navLoop env u maxR attempt fuel res acc =
      navLoop env u maxR (attempt + k) (fuel - k) res (acc ++ navAttemptsTrace u k) := by
  intro k
  induction k with
  | zero => intro attempt fuel res acc _ _ _; simp [navAttemptsTrace]
  | succ k ih =>
    intro attempt fuel res acc hsum hlt hpre
    have hfuel : ∃ f, fuel = f + 1 := ⟨fuel - 1, by omega⟩
    obtain ⟨f, rfl⟩ := hfuel
    have hstep := navLoop_retry_step env u maxR attempt f res acc b p hb hcon hp hcl
      (by simpa using hpre 0 (by omega)) (by omega)
    rw [hstep]
    have hrec := ih (attempt + 1) f res (acc ++ [.goto u, .sleepSec 2])
      (by omega) (by omega)
      (fun j hj => by
        have := hpre (j + 1) (by omega)
        simpa [Nat.add_assoc, Nat.add_comm 1 j] using this)
    rw [hrec]
    have h1 : attempt + 1 + k = attempt + (k + 1) := by omega
    have h2 : f - k = f + 1 - (k + 1) := by omega
    rw [h1, h2]
    have h3 : acc ++ [Action.goto u, Action.sleepSec 2] ++ navAttemptsTrace u k =
        acc ++ navAttemptsTrace u (k + 1) := by
      simp [navAttemptsTrace]
    rw [h3]

end PlaywrightExec

namespace PlaywrightExec

/-- C3: for a Given navigation step with effective `max_retries = N`
(`step.get('retries', 2)`), `execute_step` issues at most `N` `goto`
calls; when the first `k` attempts fail retryably and attempt `k`
succeeds, the trace is exactly `k` goto-sleep(2s) pairs followed by the
final successful goto (one fixed 2-second sleep between consecutive
attempts, and attempting stops at the first success); when attempt `k`
fails with a closed-browser-class Playwright error, the trace ends at
that goto — exactly zero further attempts — and the step is reported
failed; and when all `N` attempts fail retryably the step is reported
failed after exactly `N` gotos. -/
theorem c3_nav_retry_bound :
    (∀ (env : StepEnv) (step : Step),
      gotoCount (execute_step env step "given").2 ≤ step.retries.getD 2)
    ∧ (∀ (env : StepEnv) (step : Step) (u : String) (N k : Nat) (code : Option Int),
      step.url = some u → step.retries.getD 2 = N →
      (check_browser_state env.self).1 = true →
      k < N → (∀ j, j < k → retryableNav (env.nav j) = true) →
      env.nav k = .ok code →
      (execute_step env step "given").2 = navAttemptsTrace u k ++ [.goto u]
      ∧ (execute_step env step "given").1.status = "passed")
    ∧ (∀ (env : StepEnv) (step : Step) (u : String) (N k : Nat) (m : String),
      step.url = some u → step.retries.getD 2 = N →
      (check_browser_state env.self).1 = true →
      k < N → (∀ j, j < k → retryableNav (env.nav j) = true) →
      env.nav k = .error (.pw m) → isClosedErr m = true →
      (execute_step env step "given").2 = navAttemptsTrace u k ++ [.goto u]
      ∧ (execute_step env step "given").1.status = "failed")
    ∧ (∀ (env : StepEnv) (step : Step) (u : String) (N : Nat),
      step.url = some u → step.retries.getD 2 = N →
      (check_browser_state env.self).1 = true →
      0 < N → (∀ j, j < N → retryableNav (env.nav j) = true) →
      (execute_step env step "given").2 = navAttemptsTrace u (N - 1) ++ [.goto u]
      ∧ (execute_step env step "given").1.status = "failed") := by
  refine ⟨?_, ?_, ?_, ?_⟩
  · intro env step
    cases hchk : (check_browser_state env.self).1 with
    | false => simp [execute_step, executeStepBody, hchk, gotoCount]
    | true =>
      cases hu : step.url with
      | none => simp [execute_step, executeStepBody, hchk, hu, gotoCount]
      | some u =>
        have hbound := navLoop_gotoCount env u (step.retries.getD 2)
          (step.retries.getD 2) 0 (stepInit step "given") []
        simp only [gotoCount, List.countP_nil, Nat.zero_add] at hbound
        simp only [execute_step, executeStepBody, hchk, hu]
        simpa [gotoCount] using hbound
  · intro env step u N k code hu hN hchk hk hpre hnav
    obtain ⟨hcr, b, hb, hcon, p, hp, hcl⟩ := check_ok env.self hchk
    have hskip := navLoop_skip_k env u N b p hb hcon hp hcl k 0 N
      (stepInit step "given") [] (by omega) (by omega)
      (fun j hj => by simpa using hpre j hj)
    rw [Nat.zero_add, List.nil_append] at hskip
    obtain ⟨f, hf⟩ : ∃ f, N - k = f + 1 := ⟨N - k - 1, by omega⟩
    rw [hf] at hskip
    rw [navLoop_ok_step env u N k f (stepInit step "given") (navAttemptsTrace u k)
      b p hb hcon hp hcl code hnav] at hskip
    constructor
    · simp [execute_step, executeStepBody, hchk, hu, hN, hskip]
    · simp [execute_step, executeStepBody, hchk, hu, hN, hskip, stepExceptHandler]
  · intro env step u N k m hu hN hchk hk hpre hnav hm
    obtain ⟨hcr, b, hb, hcon, p, hp, hcl⟩ := check_ok env.self hchk
    have hskip := navLoop_skip_k env u N b p hb hcon hp hcl k 0 N
      (stepInit step "given") [] (by omega) (by omega)
      (fun j hj => by simpa using hpre j hj)
    rw [Nat.zero_add, List.nil_append] at hskip
    obtain ⟨f, hf⟩ : ∃ f, N - k = f + 1 := ⟨N - k - 1, by omega⟩
    rw [hf] at hskip
    rw [navLoop_closed_step env u N k f (stepInit step "given") (navAttemptsTrace u k)
      b p hb hcon hp hcl m hnav hm] at hskip
    constructor
    · simp [execute_step, executeStepBody, hchk, hu, hN, hskip]
    · have h1 : (execute_step env step "given").1 =
          stepExceptHandler env (navLoop env u N 0 N (stepInit step "given") []).1
            (navLoop env u N 0 N (stepInit step "given") []).2.2 := by
        simp [execute_step, executeStepBody, hchk, hu, hN]
      rw [h1, hskip]
      exact stepExceptHandler_some_failed env _ _
  · intro env step u N hu hN hchk hNpos hpre
    obtain ⟨hcr, b, hb, hcon, p, hp, hcl⟩ := check_ok env.self hchk
    have hskip := navLoop_skip_k env u N b p hb hcon hp hcl (N - 1) 0 N
      (stepInit step "given") [] (by omega) (by omega)
      (fun j hj => by simpa using hpre j (by omega))
    rw [Nat.zero_add, List.nil_append] at hskip
    rw [show N - (N - 1) = 0 + 1 from by omega] at hskip
    have hlast := navLoop_last_step env u N (N - 1) 0 (stepInit step "given")
      (navAttemptsTrace u (N - 1)) b p hb hcon hp hcl
      (hpre (N - 1) (by omega)) (by omega)
    obtain ⟨htr, hst, e, he⟩ := hlast
    constructor
    · have h2 : (execute_step env step "given").2 =
          (navLoop env u N 0 N (stepInit step "given") []).2.1 := by
        simp [execute_step, executeStepBody, hchk, hu, hN]
      rw [h2, hskip, htr]
    · have h1 : (execute_step env step "given").1 =
          stepExceptHandler env (navLoop env u N 0 N (stepInit step "given") []).1
            (navLoop env u N 0 N (stepInit step "given") []).2.2 := by
        simp [execute_step, executeStepBody, hchk, hu, hN]
      rw [h1, hskip, he]
      exact stepExceptHandler_some_failed env _ _

/-- Step environment whose first navigation attempt fails with a generic
network error and whose second attempt succeeds with HTTP 200. -/
def c3Env : StepEnv :=
  { self := healthySt
    nav := fun n => if n == 0 then .error (.exn "net::ERR_TIMED_OUT") else .ok (some 200) }

/-- C3, witness: with the default `max_retries = 2`, one retryable
failure followed by a success yields exactly the trace goto, 2-second
sleep, goto, and a passed step. -/
theorem c3_nav_retry_bound_witness :
    (execute_step c3Env navStep "given").2 =
      [Action.goto "https://example.com", Action.sleepSec 2, Action.goto "https://example.com"]
    ∧ (execute_step c3Env navStep "given").1.status = "passed" := by
  have h := c3_nav_retry_bound.2.1 c3Env navStep "https://example.com" 2 1 (some 200)
    rfl rfl (by decide) (by omega)
    (fun j hj => by
      have hj0 : j = 0 := by omega
      subst hj0
      decide)
    rfl
  simpa [navAttemptsTrace] using h

end PlaywrightExec

namespace PlaywrightExec

theorem countP_disjoint_le {α : Type} (p q : α → Bool)
    (h : ∀ x, ¬(p x = true ∧ q x = true)) :
    ∀ l : List α, l.countP p + l.countP q ≤ l.length := by
  intro l
  induction l with
  | nil => simp
  | cons a rest ih =>
    by_cases hp : p a = true
    · have hq : ¬ q a = true := fun hq => h a ⟨hp, hq⟩
      simp [List.countP_cons, hp, hq]
      omega
    · simp [List.countP_cons, hp]
      by_cases hq : q a = true <;> simp [hq] <;> omega

theorem formatPercent_decimals (passed total : Nat) (h : 0 < total) :
    ∃ (w : String) (c d : Char),
      formatPercent passed total = w ++ "." ++ String.mk [c, d] ++ "%" := by
  refine ⟨toString (rhe (passed * 10000) total / 100),
    Nat.digitChar (rhe (passed * 10000) total % 100 / 10 % 10),
    Nat.digitChar (rhe (passed * 10000) total % 100 % 10), ?_⟩
  simp [formatPercent, h, pad2]

/-- C4: whenever the browser launch succeeds (so the summary is
computed), the overall status of `execute_specification` is derived from
the scenario counts: zero failed gives `passed`; zero passed with a
failure gives `failed`; both nonzero gives `partial`; and a
specification with no scenarios gets `passed`. -/
theorem c4_status_derivation (env : RunEnv) (spec : Specification)
    (h : env.launch = .ok ()) :
    ∃ sm, (execute_specification env spec).1.summary = some sm
    ∧ (sm.failed = 0 → (execute_specification env spec).1.status = "passed")
    ∧ (sm.passed = 0 ∧ 0 < sm.failed → (execute_specification env spec).1.status = "failed")
    ∧ (0 < sm.passed ∧ 0 < sm.failed → (execute_specification env spec).1.status = "partial")
    ∧ (spec.scenarios = [] → (execute_specification env spec).1.status = "passed") := by
  simp only [execute_specification, h]
  refine ⟨_, rfl, ?_, ?_, ?_, ?_⟩
  · intro hf
    simp only at hf
    simp [hf]
  · rintro ⟨hp, hf⟩
    simp only at hp hf
    have hf' : ¬ ((spec.scenarios.mapIdx fun i sc => env.runScenario i sc).countP
        (fun s => s.status = "failed") = 0) := by omega
    simp [hp, hf']
  · rintro ⟨hp, hf⟩
    simp only at hp hf
    have hf' : ¬ ((spec.scenarios.mapIdx fun i sc => env.runScenario i sc).countP
        (fun s => s.status = "failed") = 0) := by omega
    have hp' : ¬ ((spec.scenarios.mapIdx fun i sc => env.runScenario i sc).countP
        (fun s => s.status = "passed") = 0) := by omega
    simp [hp', hf']
  · intro hnil
    simp [hnil]

/-- C5: whenever the browser launch succeeds, the computed summary has
`total` equal to the number of scenario results, `passed + failed ≤
total`, and a `pass_rate` string produced by the two-decimal percentage
formatter — the literal `0%` when total is zero, and otherwise a string
of the form `<integer part>.<two decimal digits>%`. -/
theorem c5_summary_consistency (env : RunEnv) (spec : Specification)
    (h : env.launch = .ok ()) :
    ∃ sm, (execute_specification env spec).1.summary = some sm
    ∧ sm.total = (execute_specification env spec).1.scenarios.length
    ∧ sm.passed + sm.failed ≤ sm.total
    ∧ sm.pass_rate = formatPercent sm.passed sm.total
    ∧ (sm.total = 0 → sm.pass_rate = "0%")
    ∧ (0 < sm.total → ∃ (w : String) (c d : Char),
        sm.pass_rate = w ++ "." ++ String.mk [c, d] ++ "%") := by
  simp only [execute_specification, h]
  refine ⟨_, rfl, ?_, ?_, ?_, ?_, ?_⟩
  · simp
  · simp only []
    exact countP_disjoint_le _ _
      (fun x ⟨h1, h2⟩ => by
        simp only [decide_eq_true_eq] at h1 h2
        rw [h1] at h2
        exact absurd h2 (by decide)) _
  · simp
  · intro h0
    simp only at h0
    simp [formatPercent, h0]
  · intro h0
    simp only at h0
    exact formatPercent_decimals _ _ h0

/-- C8: the `close_browser` call of the `finally` block is always the
last run-level action of `execute_specification`, whatever the launch
outcome; and any error raised by the launch phase is converted into a
returned result with status `failed`, the run-level error message, and
no summary — it is not propagated to the caller. -/
theorem c8_cleanup_always (env : RunEnv) (spec : Specification) :
    (execute_specification env spec).2.getLast? = some RunAction.closeBrowser
    ∧ (∀ e, env.launch = .error e →
      (execute_specification env spec).1.status = "failed"
      ∧ (execute_specification env spec).1.error = some (runErrorMsg e)
      ∧ (execute_specification env spec).1.summary = none) := by
  constructor
  · rcases hl : env.launch with e | u
    · simp [execute_specification, hl, List.getLast?_concat]
    · cases u
      simp only [execute_specification, hl]
      exact List.getLast?_concat _
  · intro e he
    refine ⟨?_, ?_, ?_⟩ <;> simp [execute_specification, he]

end PlaywrightExec

namespace PlaywrightExec

/-- A one-scenario specification (the scenario itself is empty). -/
def oneScenarioSpec : Specification := { scenarios := [{}] }

/-- Run environment whose launch succeeds and whose single scenario run
fails. -/
def allFailEnv : RunEnv :=
  { launch := .ok (), runScenario := fun _ _ => { scenarioInit {} with status := "failed" } }

/-- Run environment whose launch succeeds and whose single scenario run
passes. -/
def allPassEnv : RunEnv :=
  { launch := .ok (), runScenario := fun _ _ => { scenarioInit {} with status := "passed" } }

/-- Run environment whose launch raises a closed-browser Playwright
error. -/
def launchFailEnv : RunEnv :=
  { launch := .error (.pw "Target closed"), runScenario := fun _ _ => scenarioInit {} }

/-- C4, witness: one failed scenario out of one gives overall status
`failed`. -/
theorem c4_status_derivation_witness :
    (execute_specification allFailEnv oneScenarioSpec).1.status = "failed" := by
  obtain ⟨sm, hsm, _h1, h2, _h3, _h4⟩ := c4_status_derivation allFailEnv oneScenarioSpec rfl
  have hs : sm = { total := 1, passed := 0, failed := 1, pass_rate := "0.00%" } := by
    have h := hsm
    rw [show (execute_specification allFailEnv oneScenarioSpec).1.summary =
      some { total := 1, passed := 0, failed := 1, pass_rate := "0.00%" } from by decide] at h
    exact (Option.some_inj.mp h).symm
  exact h2 (by rw [hs]; exact ⟨rfl, by decide⟩)

/-- C5, witness: the one-passing-scenario summary satisfies the
consistency conjuncts. -/
theorem c5_summary_consistency_witness :
    ∃ sm, (execute_specification allPassEnv oneScenarioSpec).1.summary = some sm
      ∧ sm.total = (execute_specification allPassEnv oneScenarioSpec).1.scenarios.length
      ∧ sm.passed + sm.failed ≤ sm.total
      ∧ sm.pass_rate = formatPercent sm.passed sm.total := by
  obtain ⟨sm, hsm, h1, h2, h3, _h4, _h5⟩ :=
    c5_summary_consistency allPassEnv oneScenarioSpec rfl
  exact ⟨sm, hsm, h1, h2, h3⟩

/-- C8, witness: a failed launch still ends the trace with the cleanup
close, and the error is converted into a failed result carrying the
closed-browser run-level message. -/
theorem c8_cleanup_always_witness :
    (execute_specification launchFailEnv oneScenarioSpec).2.getLast? =
      some RunAction.closeBrowser
    ∧ (execute_specification launchFailEnv oneScenarioSpec).1.status = "failed"
    ∧ (execute_specification launchFailEnv oneScenarioSpec).1.error =
        some "Browser or page closed unexpectedly during test execution" := by
  have h := c8_cleanup_always launchFailEnv oneScenarioSpec
  have h2 := h.2 (.pw "Target closed") rfl
  exact ⟨h.1, h2.1, by rw [h2.2.1]; decide⟩

end PlaywrightExec

namespace PlaywrightExec

/-- Number of page-creation attempts in an init trace. -/
def pageAttemptCount (l : List InitAction) : Nat :=
  l.countP (fun a => match a with | .pageAttempt _ => true | _ => false)

theorem pageAttemptCount_append (l1 l2 : List InitAction) :
    pageAttemptCount (l1 ++ l2) = pageAttemptCount l1 + pageAttemptCount l2 :=
  List.countP_append _ _ _

theorem pageRetryLoop_count (env : InitEnv) :
    ∀ (fuel attempt : Nat) (headless : Bool) (lastErr : Option String)
      (acc : List InitAction),
    pageAttemptCount (pageRetryLoop env attempt fuel headless lastErr acc).1 ≤
      pageAttemptCount acc + fuel := by
  intro fuel
  induction fuel with
  | zero => intro attempt headless lastErr acc; simp [pageRetryLoop]
  | succ f ih =>
    intro attempt headless lastErr acc
    simp only [pageRetryLoop]
    rcases hout : env.newPage attempt with m | u
    · by_cases hlt : attempt < 3 - 1
      · by_cases hh : (!headless && attempt == 1) = true
        · rcases hrel : env.relaunchRes with r | ru
          · simp [hlt, hh, hrel, pageAttemptCount_append, pageAttemptCount]
          · rcases hrec : env.recontextRes with r | ru
            · simp [hlt, hh, hrel, hrec, pageAttemptCount_append, pageAttemptCount]
            · simp only [hlt, hh, hrel, hrec, if_true]
              have := ih (attempt + 1) true (some m)
                (acc ++ [.pageAttempt (attempt + 1), .closeFailedPage]
                  ++ [.backoffSleep (attempt + 1)] ++ [.relaunchHeadless] ++ [.newContext])
              simp only [pageAttemptCount_append, pageAttemptCount] at this ⊢
              simp at this ⊢
              omega
        · simp only [hlt, hh, if_true, Bool.false_eq_true, if_false]
          have := ih (attempt + 1) headless (some m)
            (acc ++ [.pageAttempt (attempt + 1), .closeFailedPage]
              ++ [.backoffSleep (attempt + 1)])
          simp only [pageAttemptCount_append, pageAttemptCount] at this ⊢
          simp at this ⊢
          omega
      · simp [hlt, pageAttemptCount_append, pageAttemptCount]
    · simp [pageAttemptCount_append, pageAttemptCount]

end PlaywrightExec

namespace PlaywrightExec

/-- C7: during launch, page creation is attempted at most 3 times; after
failed attempt `i` (1-based) the session sleeps `i` seconds before the
next attempt; exactly once — after the second failed attempt, and only
when still headed — the browser is relaunched headless with a fresh
context before the third attempt; attempting stops at the first success;
if all 3 attempts fail, launch fails with an error carrying the last
page-creation error (and a relaunch failure propagates after cleanup). -/
theorem c7_page_retry (env : InitEnv) (cfg : InitConfig) :
    pageAttemptCount (initialize_browser env cfg).1 ≤ 3
    ∧ (env.startRes = .ok () → env.launchRes = .ok () → env.contextRes = .ok () →
      ((env.newPage 0 = .ok () →
        initialize_browser env cfg =
          ([.startPlaywright, .launchBrowser (effectiveHeadless env cfg), .newContext,
            .pageAttempt 1], .ok ()))
      ∧ (∀ a, env.newPage 0 = .error a → env.newPage 1 = .ok () →
        initialize_browser env cfg =
          ([.startPlaywright, .launchBrowser (effectiveHeadless env cfg), .newContext,
            .pageAttempt 1, .closeFailedPage, .backoffSleep 1, .pageAttempt 2], .ok ()))
      ∧ (∀ a b, env.newPage 0 = .error a → env.newPage 1 = .error b →
          effectiveHeadless env cfg = true → env.newPage 2 = .ok () →
        initialize_browser env cfg =
          ([.startPlaywright, .launchBrowser true, .newContext,
            .pageAttempt 1, .closeFailedPage, .backoffSleep 1,
            .pageAttempt 2, .closeFailedPage, .backoffSleep 2,
            .pageAttempt 3], .ok ()))
      ∧ (∀ a b, env.newPage 0 = .error a → env.newPage 1 = .error b →
          effectiveHeadless env cfg = false →
          env.relaunchRes = .ok () → env.recontextRes = .ok () →
          env.newPage 2 = .ok () →
        initialize_browser env cfg =
          ([.startPlaywright, .launchBrowser false, .newContext,
            .pageAttempt 1, .closeFailedPage, .backoffSleep 1,
            .pageAttempt 2, .closeFailedPage, .backoffSleep 2,
            .relaunchHeadless, .newContext, .pageAttempt 3], .ok ()))
      ∧ (∀ a b c, env.newPage 0 = .error a → env.newPage 1 = .error b →
          env.newPage 2 = .error c → effectiveHeadless env cfg = true →
        initialize_browser env cfg =
          ([.startPlaywright, .launchBrowser true, .newContext,
            .pageAttempt 1, .closeFailedPage, .backoffSleep 1,
            .pageAttempt 2, .closeFailedPage, .backoffSleep 2,
            .pageAttempt 3, .closeFailedPage, .cleanupClose],
            .error ("Failed to create page after 3 attempts: " ++ c)))
      ∧ (∀ a b c, env.newPage 0 = .error a → env.newPage 1 = .error b →
          env.newPage 2 = .error c → effectiveHeadless env cfg = false →
          env.relaunchRes = .ok () → env.recontextRes = .ok () →
        initialize_browser env cfg =
          ([.startPlaywright, .launchBrowser false, .newContext,
            .pageAttempt 1, .closeFailedPage, .backoffSleep 1,
            .pageAttempt 2, .closeFailedPage, .backoffSleep 2,
            .relaunchHeadless, .newContext, .pageAttempt 3, .closeFailedPage,
            .cleanupClose],
            .error ("Failed to create page after 3 attempts: " ++ c)))
      ∧ (∀ a b r, env.newPage 0 = .error a → env.newPage 1 = .error b →
          effectiveHeadless env cfg = false → env.relaunchRes = .error r →
        initialize_browser env cfg =
          ([.startPlaywright, .launchBrowser false, .newContext,
            .pageAttempt 1, .closeFailedPage, .backoffSleep 1,
            .pageAttempt 2, .closeFailedPage, .backoffSleep 2,
            .relaunchHeadless, .cleanupClose], .error r)))) := by
  constructor
  · rcases h1 : env.startRes with m | u
    · simp [initialize_browser, h1, pageAttemptCount]
    · cases u
      rcases h2 : env.launchRes with m | u
      · simp [initialize_browser, h1, h2, pageAttemptCount]
      · cases u
        rcases h3 : env.contextRes with m | u
        · simp [initialize_browser, h1, h2, h3, pageAttemptCount]
        · cases u
          have hloop := pageRetryLoop_count env 3 0 (effectiveHeadless env cfg) none []
          simp only [initialize_browser, h1, h2, h3]
          rcases hres : pageRetryLoop env 0 3 (effectiveHeadless env cfg) none [] with
            ⟨acc, created, lastErr, raised⟩
          rw [hres] at hloop
          simp only at hloop
          rcases raised with _ | r
          · rcases created with _ | _ <;>
              simp [pageAttemptCount_append, pageAttemptCount] at hloop ⊢ <;>
              omega
          · simp [pageAttemptCount_append, pageAttemptCount] at hloop ⊢
            omega
  · intro h1 h2 h3
    refine ⟨?_, ?_, ?_, ?_, ?_, ?_, ?_⟩
    · intro hp0
      simp [initialize_browser, h1, h2, h3, pageRetryLoop, hp0]
    · intro a hp0 hp1
      simp [initialize_browser, h1, h2, h3, pageRetryLoop, hp0, hp1]
    · intro a b hp0 hp1 hh hp2
      simp [initialize_browser, h1, h2, h3, pageRetryLoop, hp0, hp1, hp2, hh]
    · intro a b hp0 hp1 hh hrel hrec hp2
      simp [initialize_browser, h1, h2, h3, pageRetryLoop, hp0, hp1, hp2, hh, hrel, hrec]
    · intro a b c hp0 hp1 hp2 hh
      simp [initialize_browser, h1, h2, h3, pageRetryLoop, hp0, hp1, hp2, hh, pyStrOpt]
    · intro a b c hp0 hp1 hp2 hh hrel hrec
      simp [initialize_browser, h1, h2, h3, pageRetryLoop, hp0, hp1, hp2, hh, hrel, hrec,
        pyStrOpt]
    · intro a b r hp0 hp1 hh hrel
      simp [initialize_browser, h1, h2, h3, pageRetryLoop, hp0, hp1, hh, hrel]

end PlaywrightExec

namespace PlaywrightExec

/-- Init environment: headed launch on Windows (so no display
downgrade), first two page-creation attempts fail, third succeeds. -/
def c7Env : InitEnv :=
  { newPage := fun n => if n < 2 then .error "page crashed" else .ok ()
    platformIsWindows := true }

/-- C7, witness: two failed headed attempts trigger the one-time
headless relaunch with a fresh context before the successful third
attempt, with backoffs of 1 and 2 seconds. -/
theorem c7_page_retry_witness :
    initialize_browser c7Env {} =
      ([.startPlaywright, .launchBrowser false, .newContext,
        .pageAttempt 1, .closeFailedPage, .backoffSleep 1,
        .pageAttempt 2, .closeFailedPage, .backoffSleep 2,
        .relaunchHeadless, .newContext, .pageAttempt 3], .ok ()) := by
  have h := (c7_page_retry c7Env {}).2 rfl rfl rfl
  exact h.2.2.2.1 "page crashed" "page crashed" rfl rfl rfl rfl rfl rfl

end PlaywrightExec

namespace PlaywrightExec

/-- The events the page layer emits: a close call when the page exists
and is not yet closed, plus the release when the call succeeds. -/
def pageEvents (o : CloseOracle) (s : Session) : List CloseEvent :=
  if s.pagePresent then
    if !s.pageClosed then
      if o.pageErr then [.pageCloseCall] else [.pageCloseCall, .releasePage]
    else []
  else []

/-- The events the context layer emits: a close call whenever the
attribute is set, with a release only when the context was still open
and the call succeeds. -/
def ctxEvents (o : CloseOracle) (s : Session) : List CloseEvent :=
  if s.ctxPresent then
    if !s.ctxClosed && !o.ctxErr then [.ctxCloseCall, .releaseCtx] else [.ctxCloseCall]
  else []

/-- The events the browser layer emits. -/
def browserEvents (o : CloseOracle) (s : Session) : List CloseEvent :=
  if s.browserPresent then
    if s.browserConnected then
      if o.browserErr then [.browserCloseCall] else [.browserCloseCall, .releaseBrowser]
    else []
  else []

/-- The events the driver layer emits. -/
def pwEvents (o : CloseOracle) (s : Session) : List CloseEvent :=
  if s.pwPresent then
    if !s.pwStopped && !o.pwErr then [.pwStopCall, .releasePw] else [.pwStopCall]
  else []

/-- Whether an event is an actual resource release. -/
def isReleaseEvent : CloseEvent → Bool
  | .releasePage | .releaseCtx | .releaseBrowser | .releasePw => true
  | _ => false

theorem close_browser_char (o : CloseOracle) (s : Session) :
    close_browser o s =
      ({ s with
          pageClosed := s.pageClosed || (s.pagePresent && !o.pageErr)
          ctxClosed := s.ctxClosed || (s.ctxPresent && !o.ctxErr)
          browserConnected := s.browserConnected && !(s.browserPresent && !o.browserErr)
          pwStopped := s.pwStopped || (s.pwPresent && !o.pwErr) },
        pageEvents o s ++ ctxEvents o s ++ browserEvents o s ++ pwEvents o s) := by
  obtain ⟨pp, pc, cp, cc, bp, bc, wp, ws⟩ := s
  obtain ⟨pe, ce, be, we⟩ := o
  cases pp <;> cases pc <;> cases cp <;> cases cc <;> cases bp <;> cases bc <;>
    cases wp <;> cases ws <;> cases pe <;> cases ce <;> cases be <;> cases we <;> rfl

theorem pageEvents_subset (o : CloseOracle) (s : Session) :
    ∀ e ∈ pageEvents o s, e = CloseEvent.pageCloseCall ∨ e = CloseEvent.releasePage := by
  unfold pageEvents
  split_ifs <;> simp_all

theorem ctxEvents_subset (o : CloseOracle) (s : Session) :
    ∀ e ∈ ctxEvents o s, e = CloseEvent.ctxCloseCall ∨ e = CloseEvent.releaseCtx := by
  unfold ctxEvents
  split_ifs <;> simp_all

theorem browserEvents_subset (o : CloseOracle) (s : Session) :
    ∀ e ∈ browserEvents o s,
      e = CloseEvent.browserCloseCall ∨ e = CloseEvent.releaseBrowser := by
  unfold browserEvents
  split_ifs <;> simp_all

theorem pwEvents_subset (o : CloseOracle) (s : Session) :
    ∀ e ∈ pwEvents o s, e = CloseEvent.pwStopCall ∨ e = CloseEvent.releasePw := by
  unfold pwEvents
  split_ifs <;> simp_all

theorem mem_pageEvents_call (o : CloseOracle) (s : Session) :
    CloseEvent.pageCloseCall ∈ pageEvents o s ↔
      (s.pagePresent = true ∧ s.pageClosed = false) := by
  unfold pageEvents
  split_ifs <;> simp_all

theorem mem_ctxEvents_call (o : CloseOracle) (s : Session) :
    CloseEvent.ctxCloseCall ∈ ctxEvents o s ↔ s.ctxPresent = true := by
  unfold ctxEvents
  split_ifs <;> simp_all

theorem mem_browserEvents_call (o : CloseOracle) (s : Session) :
    CloseEvent.browserCloseCall ∈ browserEvents o s ↔
      (s.browserPresent = true ∧ s.browserConnected = true) := by
  unfold browserEvents
  split_ifs <;> simp_all

theorem mem_pwEvents_call (o : CloseOracle) (s : Session) :
    CloseEvent.pwStopCall ∈ pwEvents o s ↔ s.pwPresent = true := by
  unfold pwEvents
  split_ifs <;> simp_all

theorem count_releasePage_pageEvents (o : CloseOracle) (s : Session) :
    (pageEvents o s).count CloseEvent.releasePage =
      if s.pagePresent && !s.pageClosed && !o.pageErr then 1 else 0 := by
  unfold pageEvents
  split_ifs <;> simp_all [List.count_cons]

theorem count_releaseCtx_ctxEvents (o : CloseOracle) (s : Session) :
    (ctxEvents o s).count CloseEvent.releaseCtx =
      if s.ctxPresent && !s.ctxClosed && !o.ctxErr then 1 else 0 := by
  unfold ctxEvents
  split_ifs <;> simp_all [List.count_cons]

theorem count_releaseBrowser_browserEvents (o : CloseOracle) (s : Session) :
    (browserEvents o s).count CloseEvent.releaseBrowser =
      if s.browserPresent && s.browserConnected && !o.browserErr then 1 else 0 := by
  unfold browserEvents
  split_ifs <;> simp_all [List.count_cons]

theorem count_releasePw_pwEvents (o : CloseOracle) (s : Session) :
    (pwEvents o s).count CloseEvent.releasePw =
      if s.pwPresent && !s.pwStopped && !o.pwErr then 1 else 0 := by
  unfold pwEvents
  split_ifs <;> simp_all [List.count_cons]

theorem count_eq_zero_of_subset {l : List CloseEvent} {a b : CloseEvent}
    (hsub : ∀ e ∈ l, e = a ∨ e = b) (c : CloseEvent) (hca : c ≠ a) (hcb : c ≠ b) :
    l.count c = 0 := by
  rw [List.count_eq_zero]
  intro hmem
  rcases hsub c hmem with h | h
  · exact hca h
  · exact hcb h

end PlaywrightExec

namespace PlaywrightExec

theorem count_close_releasePage (o : CloseOracle) (s : Session) :
    (close_browser o s).2.count CloseEvent.releasePage =
      if s.pagePresent && !s.pageClosed && !o.pageErr then 1 else 0 := by
  rw [close_browser_char]
  simp only [List.count_append]
  rw [count_releasePage_pageEvents,
    count_eq_zero_of_subset (ctxEvents_subset o s) _ (by decide) (by decide),
    count_eq_zero_of_subset (browserEvents_subset o s) _ (by decide) (by decide),
    count_eq_zero_of_subset (pwEvents_subset o s) _ (by decide) (by decide)]
  omega

theorem count_close_releaseCtx (o : CloseOracle) (s : Session) :
    (close_browser o s).2.count CloseEvent.releaseCtx =
      if s.ctxPresent && !s.ctxClosed && !o.ctxErr then 1 else 0 := by
  rw [close_browser_char]
  simp only [List.count_append]
  rw [count_releaseCtx_ctxEvents,
    count_eq_zero_of_subset (pageEvents_subset o s) _ (by decide) (by decide),
    count_eq_zero_of_subset (browserEvents_subset o s) _ (by decide) (by decide),
    count_eq_zero_of_subset (pwEvents_subset o s) _ (by decide) (by decide)]
  omega

theorem count_close_releaseBrowser (o : CloseOracle) (s : Session) :
    (close_browser o s).2.count CloseEvent.releaseBrowser =
      if s.browserPresent && s.browserConnected && !o.browserErr then 1 else 0 := by
  rw [close_browser_char]
  simp only [List.count_append]
  rw [count_releaseBrowser_browserEvents,
    count_eq_zero_of_subset (pageEvents_subset o s) _ (by decide) (by decide),
    count_eq_zero_of_subset (ctxEvents_subset o s) _ (by decide) (by decide),
    count_eq_zero_of_subset (pwEvents_subset o s) _ (by decide) (by decide)]
  omega

theorem count_close_releasePw (o : CloseOracle) (s : Session) :
    (close_browser o s).2.count CloseEvent.releasePw =
      if s.pwPresent && !s.pwStopped && !o.pwErr then 1 else 0 := by
  rw [close_browser_char]
  simp only [List.count_append]
  rw [count_releasePw_pwEvents,
    count_eq_zero_of_subset (pageEvents_subset o s) _ (by decide) (by decide),
    count_eq_zero_of_subset (ctxEvents_subset o s) _ (by decide) (by decide),
    count_eq_zero_of_subset (browserEvents_subset o s) _ (by decide) (by decide)]
  omega

theorem close_state_pagePresent (o : CloseOracle) (s : Session) :
    (close_browser o s).1.pagePresent = s.pagePresent := by rw [close_browser_char]

theorem close_state_pageClosed (o : CloseOracle) (s : Session) :
    (close_browser o s).1.pageClosed =
      (s.pageClosed || (s.pagePresent && !o.pageErr)) := by rw [close_browser_char]

theorem close_state_ctxPresent (o : CloseOracle) (s : Session) :
    (close_browser o s).1.ctxPresent = s.ctxPresent := by rw [close_browser_char]

theorem close_state_ctxClosed (o : CloseOracle) (s : Session) :
    (close_browser o s).1.ctxClosed =
      (s.ctxClosed || (s.ctxPresent && !o.ctxErr)) := by rw [close_browser_char]

theorem close_state_browserPresent (o : CloseOracle) (s : Session) :
    (close_browser o s).1.browserPresent = s.browserPresent := by rw [close_browser_char]

theorem close_state_browserConnected (o : CloseOracle) (s : Session) :
    (close_browser o s).1.browserConnected =
      (s.browserConnected && !(s.browserPresent && !o.browserErr)) := by
  rw [close_browser_char]

theorem close_state_pwPresent (o : CloseOracle) (s : Session) :
    (close_browser o s).1.pwPresent = s.pwPresent := by rw [close_browser_char]

theorem close_state_pwStopped (o : CloseOracle) (s : Session) :
    (close_browser o s).1.pwStopped =
      (s.pwStopped || (s.pwPresent && !o.pwErr)) := by rw [close_browser_char]

end PlaywrightExec

namespace PlaywrightExec

/-- C9: each of the four layers of `close_browser` is attempted exactly
according to its own guard, independently of the other layers and of any
close errors (so a failure at one layer never prevents the others); no
resource is ever released twice across two consecutive invocations; and
after an error-free close, a second invocation leaves the session state
unchanged and releases nothing — the second call is a no-op that
produces no error (the function is total: every layer error is swallowed
by its own guard). -/
theorem c9_close_browser_teardown (o : CloseOracle) (s : Session) :
    (CloseEvent.pageCloseCall ∈ (close_browser o s).2 ↔
      (s.pagePresent = true ∧ s.pageClosed = false))
    ∧ (CloseEvent.ctxCloseCall ∈ (close_browser o s).2 ↔ s.ctxPresent = true)
    ∧ (CloseEvent.browserCloseCall ∈ (close_browser o s).2 ↔
      (s.browserPresent = true ∧ s.browserConnected = true))
    ∧ (CloseEvent.pwStopCall ∈ (close_browser o s).2 ↔ s.pwPresent = true)
    ∧ (∀ o2 : CloseOracle,
        ((close_browser o s).2 ++ (close_browser o2 (close_browser o s).1).2).count
          CloseEvent.releasePage ≤ 1
        ∧ ((close_browser o s).2 ++ (close_browser o2 (close_browser o s).1).2).count
          CloseEvent.releaseCtx ≤ 1
        ∧ ((close_browser o s).2 ++ (close_browser o2 (close_browser o s).1).2).count
          CloseEvent.releaseBrowser ≤ 1
        ∧ ((close_browser o s).2 ++ (close_browser o2 (close_browser o s).1).2).count
          CloseEvent.releasePw ≤ 1)
    ∧ (o.pageErr = false → o.ctxErr = false → o.browserErr = false → o.pwErr = false →
       ∀ o2 : CloseOracle,
        (close_browser o2 (close_browser o s).1).1 = (close_browser o s).1
        ∧ (close_browser o2 (close_browser o s).1).2.countP isReleaseEvent = 0) := by
  refine ⟨?_, ?_, ?_, ?_, ?_, ?_⟩
  · rw [close_browser_char]
    simp only [List.mem_append]
    constructor
    · rintro (((h | h) | h) | h)
      · exact (mem_pageEvents_call o s).mp h
      · rcases ctxEvents_subset o s _ h with h' | h' <;> simp at h'
      · rcases browserEvents_subset o s _ h with h' | h' <;> simp at h'
      · rcases pwEvents_subset o s _ h with h' | h' <;> simp at h'
    · intro hc
      exact Or.inl (Or.inl (Or.inl ((mem_pageEvents_call o s).mpr hc)))
  · rw [close_browser_char]
    simp only [List.mem_append]
    constructor
    · rintro (((h | h) | h) | h)
      · rcases pageEvents_subset o s _ h with h' | h' <;> simp at h'
      · exact (mem_ctxEvents_call o s).mp h
      · rcases browserEvents_subset o s _ h with h' | h' <;> simp at h'
      · rcases pwEvents_subset o s _ h with h' | h' <;> simp at h'
    · intro hc
      exact Or.inl (Or.inl (Or.inr ((mem_ctxEvents_call o s).mpr hc)))
  · rw [close_browser_char]
    simp only [List.mem_append]
    constructor
    · rintro (((h | h) | h) | h)
      · rcases pageEvents_subset o s _ h with h' | h' <;> simp at h'
      · rcases ctxEvents_subset o s _ h with h' | h' <;> simp at h'
      · exact (mem_browserEvents_call o s).mp h
      · rcases pwEvents_subset o s _ h with h' | h' <;> simp at h'
    · intro hc
      exact Or.inl (Or.inr ((mem_browserEvents_call o s).mpr hc))
  · rw [close_browser_char]
    simp only [List.mem_append]
    constructor
    · rintro (((h | h) | h) | h)
      · rcases pageEvents_subset o s _ h with h' | h' <;> simp at h'
      · rcases ctxEvents_subset o s _ h with h' | h' <;> simp at h'
      · rcases browserEvents_subset o s _ h with h' | h' <;> simp at h'
      · exact (mem_pwEvents_call o s).mp h
    · intro hc
      exact Or.inr ((mem_pwEvents_call o s).mpr hc)
  · intro o2
    refine ⟨?_, ?_, ?_, ?_⟩
    · rw [List.count_append, count_close_releasePage, count_close_releasePage,
        close_state_pagePresent, close_state_pageClosed]
      split_ifs with h1 h2 <;> try omega
      exfalso
      simp only [Bool.and_eq_true, Bool.not_eq_true'] at h1
      obtain ⟨⟨hpp, hpc⟩, hpe⟩ := h1
      rw [hpp, hpc, hpe] at h2
      simp at h2
    · rw [List.count_append, count_close_releaseCtx, count_close_releaseCtx,
        close_state_ctxPresent, close_state_ctxClosed]
      split_ifs with h1 h2 <;> try omega
      exfalso
      simp only [Bool.and_eq_true, Bool.not_eq_true'] at h1
      obtain ⟨⟨hcp, hcc⟩, hce⟩ := h1
      rw [hcp, hcc, hce] at h2
      simp at h2
    · rw [List.count_append, count_close_releaseBrowser, count_close_releaseBrowser,
        close_state_browserPresent, close_state_browserConnected]
      split_ifs with h1 h2 <;> try omega
      exfalso
      simp only [Bool.and_eq_true, Bool.not_eq_true'] at h1
      obtain ⟨⟨hbp, hbc⟩, hbe⟩ := h1
      rw [hbp, hbc, hbe] at h2
      simp at h2
    · rw [List.count_append, count_close_releasePw, count_close_releasePw,
        close_state_pwPresent, close_state_pwStopped]
      split_ifs with h1 h2 <;> try omega
      exfalso
      simp only [Bool.and_eq_true, Bool.not_eq_true'] at h1
      obtain ⟨⟨hwp, hws⟩, hwe⟩ := h1
      rw [hwp, hws, hwe] at h2
      simp at h2
  · intro he1 he2 he3 he4 o2
    obtain ⟨pp, pc, cp, cc, bp, bc, wp, ws⟩ := s
    obtain ⟨pe, ce, be, we⟩ := o
    simp only at he1 he2 he3 he4
    subst he1; subst he2; subst he3; subst he4
    obtain ⟨p2, c2, b2, w2⟩ := o2
    cases pp <;> cases pc <;> cases cp <;> cases cc <;> cases bp <;> cases bc <;>
      cases wp <;> cases ws <;> cases p2 <;> cases c2 <;> cases b2 <;> cases w2 <;>
      exact ⟨rfl, rfl⟩

end PlaywrightExec

namespace PlaywrightExec

/-- A fully live session: page open, context and driver running, browser
connected. -/
def liveSession : Session :=
  { pagePresent := true, pageClosed := false, ctxPresent := true, ctxClosed := false
    browserPresent := true, browserConnected := true, pwPresent := true, pwStopped := false }

/-- The oracle under which every layer close succeeds. -/
def noErrOracle : CloseOracle :=
  { pageErr := false, ctxErr := false, browserErr := false, pwErr := false }

/-- C9, witness: after an error-free close of a live session, a second
close leaves the state unchanged, releases nothing, and the page is
released at most once across both calls. -/
theorem c9_close_browser_teardown_witness :
    (close_browser noErrOracle (close_browser noErrOracle liveSession).1).1 =
      (close_browser noErrOracle liveSession).1
    ∧ (close_browser noErrOracle (close_browser noErrOracle liveSession).1).2.countP
        isReleaseEvent = 0
    ∧ ((close_browser noErrOracle liveSession).2
        ++ (close_browser noErrOracle (close_browser noErrOracle liveSession).1).2).count
        CloseEvent.releasePage ≤ 1 := by
  have h := c9_close_browser_teardown noErrOracle liveSession
  have h6 := h.2.2.2.2.2 rfl rfl rfl rfl noErrOracle
  exact ⟨h6.1, h6.2, (h.2.2.2.2.1 noErrOracle).1⟩

end PlaywrightExec
